import Mathlib

/-! Voice agent turn orchestration (`src/App.jsx`).

A shallow embedding of the `VoiceAgent` React component: its `useState` cells and
`useRef` cells are fields of one `State` record, every handler of the component is a
function on that record, and every `await` splits the enclosing `async` function into
the part that runs before the suspension and the part that runs when the awaited
promise settles.  Values decided by the browser or by a remote provider (the outcome
of a `fetch`, whether `audio.play()` starts, ...) are explicit arguments.

Variables that a handler reads through its closure (`conversationHistory` in
`handleTranscriptComplete`) are explicit arguments too, because the closure that runs
is not always the one of the latest render.
-/

namespace VoiceAgent

/-! ## Data model -/

/-- The `role` field of a history entry: `'user'` or `'assistant'`. -/
inductive Role where
  | user
  | assistant
  deriving DecidableEq, Repr

/-- One entry of `conversationHistory`: `{ role, content }`. -/
structure Message where
  role : Role
  content : String
  deriving DecidableEq, Repr

/-- The `apiKeys` object (lines 16-20); an unset variable is the empty string. -/
structure ApiKeys where
  deepgram : String
  groq : String
  murf : String
  deriving DecidableEq, Repr

/-- What is fixed for the life of the component: the credentials and the two
capability tests `'SpeechRecognition' in window` and `'speechSynthesis' in window`. -/
structure Config where
  apiKeys : ApiKeys
  hasSpeechRecognition : Bool
  hasSpeechSynthesis : Bool
  deriving DecidableEq, Repr

/-- Calls made by the component, in the order they are made. -/
inductive Call where
  | getAIResponse (userMessage : String) (history : List Message) (signal : Nat)
  | fetchGroq (messages : List Message) (signal : Nat)
  | speakResponse (text : String)
  | speakWithMurf (text : String)
  | speakWithWebAPI (text : String)
  | synthSpeak (text : String)
  | synthCancel
  | audioPlay (audio : Nat)
  | audioPause (audio : Nat)
  | recognitionStart
  | recognitionStop
  | getUserMedia
  | recorderStart
  | recorderStop
  | fetchDeepgram
  | focusInput
  deriving DecidableEq, Repr

/-- What a `setTimeout` callback of the component does when it fires. -/
inductive TimerAction where
  | setStatusReady
  | focusInput
  deriving DecidableEq, Repr

/-- A pending `setTimeout`: its delay in milliseconds and its callback. -/
structure Timer where
  delay : Nat
  action : TimerAction
  deriving DecidableEq, Repr

/-- A `handleTranscriptComplete` suspended at `await getAIResponse(...)` (line 227):
the local `newHistory` and the controller whose signal was passed to the request. -/
structure Turn where
  newHistory : List Message
  signal : Nat
  deriving DecidableEq, Repr

/-- Where a suspended `speakWithMurf` is waiting: at `await fetch(...)` (line 298) or
at `await audio.play()` (line 351) for the audio element it created. -/
inductive SpeakPhase where
  | fetching
  | playing (audio : Nat)
  deriving DecidableEq, Repr

/-- A `speakResponse` suspended at `await speakWithMurf(text)` (line 283); `awaited`
tells whether a `handleTranscriptComplete` is itself suspended on it (line 234). -/
structure Speak where
  text : String
  phase : SpeakPhase
  awaited : Bool
  deriving DecidableEq, Repr

/-- The `MediaRecorder` held by `mediaRecorderRef`: whether its state is not
`'inactive'`, and the `conversationHistory` bound in its `onstop` closure. -/
structure Recorder where
  recording : Bool
  captured : List Message
  deriving DecidableEq, Repr

/-- The component state: the `useState` cells (lines 5-13), the `useRef` cells
(lines 22-27), the browser objects they point to, the log of calls, the pending
timers and the suspended `async` continuations. -/
structure State where
  isListening : Bool
  transcript : String
  response : String
  isSpeaking : Bool
  status : String
  conversationHistory : List Message
  darkMode : Bool
  continuousMode : Bool
  isGenerating : Bool
  recognitionRef : Bool
  mediaRecorderRef : Option Recorder
  inputRef : Bool
  abortControllerRef : Option Nat
  audioRef : Option Nat
  controllers : List Bool
  audios : Nat
  synthQueue : Nat
  calls : List Call
  timers : List Timer
  turns : List Turn
  speaks : List Speak
  mediaRequests : List (List Message)
  recorderStops : List (List Message)
  transcriptions : List (List Message)
  deriving DecidableEq, Repr

/-! ## JavaScript primitives -/

/-- ECMAScript `WhiteSpace` and `LineTerminator` code points, the ones
`String.prototype.trim` removes. -/
def jsIsWhiteSpace (c : Char) : Bool :=
  let n := c.toNat
  n == 0x09 || n == 0x0A || n == 0x0B || n == 0x0C || n == 0x0D || n == 0x20 ||
  n == 0xA0 || n == 0x1680 || (0x2000 ≤ n && n ≤ 0x200A) || n == 0x2028 ||
  n == 0x2029 || n == 0x202F || n == 0x205F || n == 0x3000 || n == 0xFEFF

/-- The characters of `text.trim()`. -/
def jsTrimChars (l : List Char) : List Char :=
  ((l.dropWhile jsIsWhiteSpace).reverse.dropWhile jsIsWhiteSpace).reverse

/-- JavaScript `text.trim()`. -/
def jsTrim (text : String) : String :=
  String.mk (jsTrimChars text.toList)

/-- JavaScript truthiness of a string: every string but `''`. -/
def truthy (x : String) : Bool :=
  x != ""

/-! ## Mount -/

/-- The values given to `useState` and `useRef` (lines 5-27). -/
def initialState : State :=
  { isListening := false, transcript := "", response := "", isSpeaking := false,
    status := "Ready", conversationHistory := [], darkMode := false,
    continuousMode := false, isGenerating := false, recognitionRef := false,
    mediaRecorderRef := none, inputRef := false, abortControllerRef := none,
    audioRef := none, controllers := [], audios := 0, synthQueue := 0, calls := [],
    timers := [], turns := [], speaks := [], mediaRequests := [], recorderStops := [],
    transcriptions := [] }

/-- The state after the first render and its mount effects: the configuration check
(lines 30-38), the creation of the recognizer (lines 60-88) and the text input
attached to `inputRef`. -/
def mount (cfg : Config) : State :=
  { initialState with
    status :=
      if !truthy cfg.apiKeys.groq then "⚠️ Groq API key not configured"
      else if truthy cfg.apiKeys.murf then "Ready (GROQ + MURF Voice)"
      else "Ready (GROQ)",
    recognitionRef := cfg.hasSpeechRecognition,
    inputRef := true }

/-! ## Stop controls -/

/-- `abortControllerRef.current.abort()` guarded by `if (abortControllerRef.current)`. -/
def abortCurrent (s : State) : State :=
  match s.abortControllerRef with
  | some i => { s with controllers := s.controllers.set i true }
  | none => s

/-- `stopGeneration` (lines 99-106). -/
def stopGeneration (s : State) : State :=
  let s1 := abortCurrent s
  { s1 with
    isGenerating := false,
    status := "Generation stopped",
    timers := s1.timers ++ [⟨2000, TimerAction.setStatusReady⟩] }

/-- `stopSpeaking` (lines 108-123).  Reading `window.speechSynthesis.speaking` throws
a `TypeError` in a browser without `speechSynthesis`. -/
def stopSpeaking (cfg : Config) (s : State) : Except String State :=
  if !cfg.hasSpeechSynthesis then
    Except.error "TypeError: window.speechSynthesis is undefined"
  else
    let s1 :=
      if 0 < s.synthQueue then
        { s with synthQueue := 0, calls := s.calls ++ [Call.synthCancel] }
      else s
    let s2 :=
      match s1.audioRef with
      | some a => { s1 with calls := s1.calls ++ [Call.audioPause a], audioRef := none }
      | none => s1
    Except.ok { s2 with isSpeaking := false, status := "Ready (GROQ)" }

/-! ## Speech synthesis chain -/

/-- `speakWithWebAPI` (lines 359-381). -/
def speakWithWebAPI (cfg : Config) (text : String) (s : State) : State :=
  let s1 := { s with calls := s.calls ++ [Call.speakWithWebAPI text] }
  if cfg.hasSpeechSynthesis then
    { s1 with synthQueue := s1.synthQueue + 1, calls := s1.calls ++ [Call.synthSpeak text] }
  else
    { s1 with isSpeaking := false, status := "Ready (GROQ)" }

/-- The last two statements of `handleTranscriptComplete` (lines 237-238). -/
def handleTranscriptCompleteEnd (s : State) : State :=
  { s with isGenerating := false, status := "Ready (GROQ)" }

/-- What runs when `speakResponse` returns: the rest of `handleTranscriptComplete`
if it was awaiting the call (line 234), nothing for a call from `toggleSpeaking`. -/
def speakResponseReturns (awaited : Bool) (s : State) : State :=
  if awaited then handleTranscriptCompleteEnd s else s

/-- `speakResponse` (lines 276-293) up to its first suspension: with a Murf key it
stops at the `fetch` of `speakWithMurf`; without one it calls `speakWithWebAPI` and
returns. -/
def speakResponse (cfg : Config) (text : String) (awaited : Bool) (s : State) : State :=
  let s1 := { s with isSpeaking := true, status := "Speaking...",
                     calls := s.calls ++ [Call.speakResponse text] }
  if truthy cfg.apiKeys.murf then
    { s1 with calls := s1.calls ++ [Call.speakWithMurf text],
              speaks := s1.speaks ++ [⟨text, SpeakPhase.fetching, awaited⟩] }
  else
    speakResponseReturns awaited (speakWithWebAPI cfg text s1)

/-- How the `fetch` of `speakWithMurf` and the parsing of its body end: the request
or `response.json()` rejects, the response is not OK, or a body arrives with its
`audioFile` field (absent: `none`). -/
inductive MurfFetch where
  | rejected
  | notOk (status : Nat)
  | body (audioFile : Option String)
  deriving DecidableEq, Repr

/-- `speakWithMurf` returned `false`: `speakResponse` falls through to
`speakWithWebAPI(text)` (line 287) and returns. -/
def murfFailed (cfg : Config) (sp : Speak) (s : State) : State :=
  speakResponseReturns sp.awaited (speakWithWebAPI cfg sp.text s)

/-- `speakWithMurf` from the settling of its `fetch` to `await audio.play()`
(lines 320-351), for the suspended call at index `i`. -/
def murfFetchSettles (cfg : Config) (i : Nat) (r : MurfFetch) (s : State) : State :=
  match s.speaks.get? i with
  | none => s
  | some sp =>
    match sp.phase with
    | SpeakPhase.playing _ => s
    | SpeakPhase.fetching =>
      match r with
      | MurfFetch.body (some url) =>
        if truthy url then
          { s with audios := s.audios + 1, audioRef := some s.audios,
                   calls := s.calls ++ [Call.audioPlay s.audios],
                   speaks := s.speaks.set i { sp with phase := SpeakPhase.playing s.audios } }
        else murfFailed cfg sp { s with speaks := s.speaks.eraseIdx i }
      | _ => murfFailed cfg sp { s with speaks := s.speaks.eraseIdx i }

/-- `speakWithMurf` from the settling of `audio.play()` (lines 351-356): it returns
`true` when playback started, and `false` from the `catch` when `play()` rejected. -/
def audioPlaySettles (cfg : Config) (i : Nat) (started : Bool) (s : State) : State :=
  match s.speaks.get? i with
  | none => s
  | some sp =>
    match sp.phase with
    | SpeakPhase.fetching => s
    | SpeakPhase.playing _ =>
      if started then speakResponseReturns sp.awaited { s with speaks := s.speaks.eraseIdx i }
      else murfFailed cfg sp { s with speaks := s.speaks.eraseIdx i }

/-- The `onended` and `onerror` handlers of a Murf audio element (lines 338-349). -/
def audioFinished (s : State) : State :=
  { s with isSpeaking := false, status := "Ready (GROQ)", audioRef := none }

/-- The `onend` and `onerror` handlers of a Web Speech utterance (lines 366-374); the
utterance leaves the synthesizer queue. -/
def utteranceFinished (s : State) : State :=
  { s with synthQueue := s.synthQueue - 1, isSpeaking := false, status := "Ready (GROQ)" }

/-! ## Generation -/

/-- The reply returned by `getAIResponse` when the Groq key is missing (line 244). -/
def configureKeyReply : String :=
  "Please configure your Groq API key in the .env file."

/-- The reply returned by the `catch` of `getAIResponse` for an error that is not an
`AbortError` (line 272). -/
def apologyReply : String :=
  "I apologize, but I encountered an error. Please check your API configuration."

/-- How the request of `getAIResponse` ends (lines 248-265): `fetch` or
`response.json()` rejects with an `AbortError`; `fetch` rejects with another error;
the response is not OK; the body cannot be parsed or has no `choices[0].message` (a
`SyntaxError` or a `TypeError`); or the body has one, and `content` is its `content`
field (absent: `none`). -/
inductive GroqReply where
  | abortError
  | networkError
  | notOk (status : Nat)
  | badBody
  | content (c : Option String)
  deriving DecidableEq, Repr

/-- `getAIResponse` from the settling of its `fetch` to its `return` (lines 263-273):
the new state and the returned value, `none` standing for `null` and `undefined`. -/
def getAIResponseSettles (reply : GroqReply) (s : State) : State × Option String :=
  match reply with
  | GroqReply.content c => (s, c)
  | GroqReply.abortError => (s, none)
  | GroqReply.networkError => ({ s with status := "Error getting AI response" }, some apologyReply)
  | GroqReply.notOk _ => ({ s with status := "Error getting AI response" }, some apologyReply)
  | GroqReply.badBody => ({ s with status := "Error getting AI response" }, some apologyReply)

/-- The test `abortControllerRef.current.signal.aborted` of line 229: it reads the
controller the ref holds now.  `none` when the ref is `null` (the read throws). -/
def currentSignalAborted (s : State) : Option Bool :=
  match s.abortControllerRef with
  | some i => some (s.controllers.getD i false)
  | none => none

/-- `handleTranscriptComplete` from the return of `getAIResponse` on (lines 229-238),
up to the first suspension inside `speakResponse`.  `t` holds the locals of the
suspended call and `aiResponse` the value returned (`none`: `null`). -/
def handleTranscriptCompleteResume (cfg : Config) (t : Turn) (aiResponse : Option String)
    (s : State) : State :=
  match aiResponse with
  | none => handleTranscriptCompleteEnd s
  | some r =>
    if truthy r then
      match currentSignalAborted s with
      | none => s
      | some true => handleTranscriptCompleteEnd s
      | some false =>
        speakResponse cfg r true
          { s with response := r,
                   conversationHistory := t.newHistory ++ [⟨Role.assistant, r⟩] }
    else handleTranscriptCompleteEnd s

/-- The locals of a `handleTranscriptComplete(text)` started in state `s` by a closure
whose `conversationHistory` is `captured`: `newHistory` (line 223) and the fresh
controller (line 226). -/
def turnOf (captured : List Message) (text : String) (s : State) : Turn :=
  ⟨captured ++ [⟨Role.user, text⟩], s.controllers.length⟩

/-- `handleTranscriptComplete` (lines 214-227) up to its first suspension.
`conversationHistory` is the value bound in the closure that runs.  With a Groq key
the call stops at the `fetch` of `getAIResponse`; without one `getAIResponse` returns
at once (lines 242-245) and the call goes on. -/
def handleTranscriptComplete (cfg : Config) (conversationHistory : List Message)
    (text : String) (s : State) : State :=
  if jsTrim text == "" then
    { s with status := "No speech detected" }
  else
    let t := turnOf conversationHistory text s
    let s1 := { s with status := "Thinking...", isGenerating := true,
                       conversationHistory := t.newHistory,
                       controllers := s.controllers ++ [false],
                       abortControllerRef := some t.signal,
                       calls := s.calls ++ [Call.getAIResponse text t.newHistory t.signal] }
    if truthy cfg.apiKeys.groq then
      { s1 with calls := s1.calls ++ [Call.fetchGroq t.newHistory t.signal],
                turns := s1.turns ++ [t] }
    else
      handleTranscriptCompleteResume cfg t (some configureKeyReply)
        { s1 with status := "Groq API key not configured" }

/-- The request of the suspended turn at index `i` settles: `getAIResponse` returns
and `handleTranscriptComplete` goes on. -/
def groqSettles (cfg : Config) (i : Nat) (reply : GroqReply) (s : State) : State :=
  match s.turns.get? i with
  | none => s
  | some t =>
    let p := getAIResponseSettles reply { s with turns := s.turns.eraseIdx i }
    handleTranscriptCompleteResume cfg t p.2 p.1

/-! ## Capture -/

/-- The `conversationHistory` of the first render, `useState([])`: the value bound in
the recognizer handlers, which are registered once by the mount effect (lines 60-88). -/
def mountHistory : List Message := []

/-- `startListening` (lines 141-162) up to its first suspension.  `captured` is the
`conversationHistory` of the render whose closure runs and `startThrows` tells
whether `recognitionRef.current.start()` throws. -/
def startListening (cfg : Config) (captured : List Message) (startThrows : Bool)
    (s : State) : State :=
  let s1 := { s with status := "Listening...", transcript := "", isListening := true }
  if s1.recognitionRef then
    let s2 := { s1 with calls := s1.calls ++ [Call.recognitionStart] }
    if startThrows then
      { s2 with status := "Error starting microphone", isListening := false }
    else s2
  else if truthy cfg.apiKeys.deepgram then
    { s1 with calls := s1.calls ++ [Call.getUserMedia],
              mediaRequests := s1.mediaRequests ++ [captured] }
  else
    { s1 with status := "Speech recognition not available", isListening := false }

/-- `startDeepgramRecording` from the settling of `getUserMedia` on (lines 176-190);
a rejection is caught by `startListening` (lines 157-161). -/
def userMediaSettles (i : Nat) (granted : Bool) (s : State) : State :=
  match s.mediaRequests.get? i with
  | none => s
  | some captured =>
    let s1 := { s with mediaRequests := s.mediaRequests.eraseIdx i }
    if granted then
      { s1 with mediaRecorderRef := some ⟨true, captured⟩,
                calls := s1.calls ++ [Call.recorderStart] }
    else
      { s1 with status := "Error starting microphone", isListening := false }

/-- `stopListening` (lines 164-173); stopping an active recorder queues its `onstop`. -/
def stopListening (s : State) : State :=
  let s1 := if s.recognitionRef then { s with calls := s.calls ++ [Call.recognitionStop] } else s
  let s2 :=
    match s1.mediaRecorderRef with
    | some r =>
      if r.recording then
        { s1 with calls := s1.calls ++ [Call.recorderStop],
                  mediaRecorderRef := some { r with recording := false },
                  recorderStops := s1.recorderStops ++ [r.captured] }
      else s1
    | none => s1
  { s2 with isListening := false, status := "Processing..." }

/-- The `onstop` handler of the recorder (lines 184-188) up to the `fetch` of
`transcribeWithDeepgram`. -/
def recorderOnstop (i : Nat) (s : State) : State :=
  match s.recorderStops.get? i with
  | none => s
  | some captured =>
    { s with recorderStops := s.recorderStops.eraseIdx i,
             calls := s.calls ++ [Call.fetchDeepgram],
             transcriptions := s.transcriptions ++ [captured] }

/-- `transcribeWithDeepgram` from the settling of its request on (lines 204-211):
`reply` is the transcript read from the body (`''` when the field is absent), or
`none` when the request or the parsing throws. -/
def deepgramSettles (cfg : Config) (i : Nat) (reply : Option String) (s : State) : State :=
  match s.transcriptions.get? i with
  | none => s
  | some captured =>
    let s1 := { s with transcriptions := s.transcriptions.eraseIdx i }
    match reply with
    | none => { s1 with status := "Transcription error" }
    | some transcriptText =>
      handleTranscriptComplete cfg captured transcriptText { s1 with transcript := transcriptText }

/-- The recognizer `onresult` handler (lines 68-76): `transcriptText` and `isFinal`
are read from `event.results[event.resultIndex]`.  Its `handleTranscriptComplete` is
the one of the first render. -/
def onresult (cfg : Config) (transcriptText : String) (isFinal : Bool) (s : State) : State :=
  let s1 := { s with transcript := transcriptText }
  if isFinal then handleTranscriptComplete cfg mountHistory transcriptText s1 else s1

/-- The recognizer `onerror` handler (lines 78-82). -/
def onerror (error : String) (s : State) : State :=
  { s with status := "Error: " ++ error, isListening := false }

/-- The recognizer `onend` handler (lines 84-86). -/
def onend (s : State) : State :=
  { s with isListening := false }

/-! ## Remaining handlers -/

/-- `toggleListening` (lines 133-139), run by the closure of the current render. -/
def toggleListening (cfg : Config) (startThrows : Bool) (s : State) : State :=
  if s.isListening then stopListening s
  else startListening cfg s.conversationHistory startThrows s

/-- `toggleSpeaking` (lines 125-131), run by the closure of the current render; an
exception thrown by `stopSpeaking` leaves the state as it was. -/
def toggleSpeaking (cfg : Config) (s : State) : State :=
  if s.isSpeaking then
    match stopSpeaking cfg s with
    | Except.ok s1 => s1
    | Except.error _ => s
  else if truthy s.response then speakResponse cfg s.response false s
  else s

/-- `clearConversation` (lines 383-388). -/
def clearConversation (s : State) : State :=
  { s with conversationHistory := [], transcript := "", response := "",
           status := "Ready (GROQ)" }

/-- The body of the continuous-mode effect (lines 91-97): it schedules a focus of the
text input after 500 ms. -/
def continuousModeEffect (s : State) : State :=
  if !s.isSpeaking && !s.isGenerating && s.continuousMode && s.inputRef then
    { s with timers := s.timers ++ [⟨500, TimerAction.focusInput⟩] }
  else s

/-- The effect runs after a render in which one of its dependencies
`[isSpeaking, isGenerating, continuousMode]` changed. -/
def afterRender (old new : State) : State :=
  if old.isSpeaking != new.isSpeaking || old.isGenerating != new.isGenerating
      || old.continuousMode != new.continuousMode then
    continuousModeEffect new
  else new

/-- The timer at index `i` fires: `setStatus('Ready (GROQ)')` (line 105) or
`inputRef.current.focus()` (line 94). -/
def timerFires (i : Nat) (s : State) : State :=
  match s.timers.get? i with
  | none => s
  | some tm =>
    let s1 := { s with timers := s.timers.eraseIdx i }
    match tm.action with
    | TimerAction.setStatusReady => { s1 with status := "Ready (GROQ)" }
    | TimerAction.focusInput => { s1 with calls := s1.calls ++ [Call.focusInput] }

/-! ## The component as a transition system -/

/-- The `disabled` attribute of the text input and of the Send button (lines 607, 617). -/
def inputDisabled (s : State) : Bool :=
  s.isListening || s.isSpeaking || s.isGenerating

/-- The `disabled` attribute of the microphone button (line 556). -/
def micDisabled (s : State) : Bool :=
  s.isSpeaking || s.isGenerating

/-- The Enter key in the text input and the Send button (lines 601-616), run by the
closure of the current render. -/
def submit (cfg : Config) (value : String) (s : State) : State :=
  if truthy (jsTrim value) then handleTranscriptComplete cfg s.conversationHistory value s
  else s

/-- Everything that can happen to the mounted component: the user acts on an
affordance, or the browser delivers an event or settles a promise. -/
inductive Event where
  | micClick (startThrows : Bool)
  | submit (value : String)
  | stopGenerationClick
  | toggleSpeakingClick
  | continuousClick
  | darkClick
  | clearClick
  | recognizerResult (transcriptText : String) (isFinal : Bool)
  | recognizerError (error : String)
  | recognizerEnd
  | groqSettles (i : Nat) (reply : GroqReply)
  | murfFetchSettles (i : Nat) (r : MurfFetch)
  | audioPlaySettles (i : Nat) (started : Bool)
  | audioEnded (audio : Nat)
  | audioError (audio : Nat)
  | utteranceEnded
  | userMediaSettles (i : Nat) (granted : Bool)
  | recorderOnstop (i : Nat)
  | deepgramSettles (i : Nat) (reply : Option String)
  | timerFires (i : Nat)
  deriving DecidableEq, Repr

/-- The handler run for an event.  An affordance that is disabled or not rendered in
the current state, and a browser event for an object that does not exist, do nothing. -/
def handle (cfg : Config) (e : Event) (s : State) : State :=
  match e with
  | Event.micClick startThrows => if micDisabled s then s else toggleListening cfg startThrows s
  | Event.submit value => if inputDisabled s then s else submit cfg value s
  | Event.stopGenerationClick => if s.isGenerating then stopGeneration s else s
  | Event.toggleSpeakingClick => if truthy s.response then toggleSpeaking cfg s else s
  | Event.continuousClick => { s with continuousMode := !s.continuousMode }
  | Event.darkClick => { s with darkMode := !s.darkMode }
  | Event.clearClick => if s.conversationHistory.isEmpty then s else clearConversation s
  | Event.recognizerResult transcriptText isFinal =>
    if s.recognitionRef then onresult cfg transcriptText isFinal s else s
  | Event.recognizerError error => if s.recognitionRef then onerror error s else s
  | Event.recognizerEnd => if s.recognitionRef then onend s else s
  | Event.groqSettles i reply => groqSettles cfg i reply s
  | Event.murfFetchSettles i r => murfFetchSettles cfg i r s
  | Event.audioPlaySettles i started => audioPlaySettles cfg i started s
  | Event.audioEnded audio => if audio < s.audios then audioFinished s else s
  | Event.audioError audio => if audio < s.audios then audioFinished s else s
  | Event.utteranceEnded => if 0 < s.synthQueue then utteranceFinished s else s
  | Event.userMediaSettles i granted => userMediaSettles i granted s
  | Event.recorderOnstop i => recorderOnstop i s
  | Event.deepgramSettles i reply => deepgramSettles cfg i reply s
  | Event.timerFires i => timerFires i s

/-- The render the effects of an event compare against.  A typed submit is a React
event: the render of the synchronous part of `handleTranscriptComplete` (lines 220-224,
`isGenerating` true) is committed before the code after `await getAIResponse` runs.
Without a Groq key that code runs in the same event (no request is awaited), so the
last committed render already has `isGenerating` true; with `isGenerating` true the
effect schedules nothing at that commit.  In every other case it is the state the
event started from. -/
def committed (cfg : Config) (e : Event) (s : State) : State :=
  match e with
  | Event.submit value =>
    if !inputDisabled s && truthy (jsTrim value) && !truthy cfg.apiKeys.groq then
      { s with isGenerating := true }
    else s
  | _ => s

/-- One transition: the handler of the event, then the effects of the render that
follows, compared with the last render committed before it. -/
def step (cfg : Config) (e : Event) (s : State) : State :=
  afterRender (committed cfg e s) (handle cfg e s)

/-- The state after a sequence of events, starting from the mounted component. -/
def run (cfg : Config) (events : List Event) : State :=
  events.foldl (fun s e => step cfg e s) (mount cfg)

/-- The states the mounted component can be in. -/
inductive Reachable (cfg : Config) : State → Prop where
  | mount : Reachable cfg (mount cfg)
  | step (e : Event) {s : State} : Reachable cfg s → Reachable cfg (step cfg e s)

/-- At most one of the three activity flags is set. -/
def atMostOneActive (s : State) : Bool :=
  !(s.isListening && s.isGenerating) && !(s.isListening && s.isSpeaking)
    && !(s.isGenerating && s.isSpeaking)

/-- The texts `speakResponse` was called with, in order. -/
def speakResponseTexts (calls : List Call) : List String :=
  calls.filterMap fun c =>
    match c with
    | Call.speakResponse x => some x
    | _ => none

/-- The message lists sent to the generation provider, in order. -/
def fetchGroqMessages (calls : List Call) : List (List Message) :=
  calls.filterMap fun c =>
    match c with
    | Call.fetchGroq m _ => some m
    | _ => none

/-- The calls to the two synthesis providers, in order. -/
def providerCalls (calls : List Call) : List Call :=
  calls.filter fun c =>
    match c with
    | Call.speakWithMurf _ => true
    | Call.speakWithWebAPI _ => true
    | _ => false

/-! ## Configurations used in the concrete runs -/

/-- A browser with both speech capabilities and the Groq and Murf keys set. -/
def murfConfig : Config :=
  { apiKeys := { deepgram := "", groq := "gsk", murf := "mk" },
    hasSpeechRecognition := true, hasSpeechSynthesis := true }

/-- A browser with both speech capabilities and only the Groq key set. -/
def groqConfig : Config :=
  { apiKeys := { deepgram := "", groq := "gsk", murf := "" },
    hasSpeechRecognition := true, hasSpeechSynthesis := true }

/-- Whether `speakWithMurf` returns `true` for a given outcome of its request and of
`audio.play()`: only with a truthy `audioFile` and a playback that started. -/
def murfSucceeds (r : MurfFetch) (started : Bool) : Bool :=
  match r with
  | MurfFetch.body (some url) => truthy url && started
  | _ => false

/-- The replies for which `getAIResponse` ends in its `catch` with an error that is
not an `AbortError`. -/
def GroqReply.isFailure (reply : GroqReply) : Bool :=
  match reply with
  | GroqReply.networkError => true
  | GroqReply.notOk _ => true
  | GroqReply.badBody => true
  | _ => false

/-- A typed turn overtaken by a voice turn: the microphone is clicked on and off
(`stopListening` asks the recognizer for a result from the audio captured so far and
enables the text input again), "a" is typed and submitted, and then the recognizer
delivers its final result "b" while the request of "a" has not settled yet. -/
def overtakenRun : State :=
  run groqConfig
    [Event.micClick false, Event.micClick false, Event.submit "a",
      Event.recognizerResult "b" true]

/-- Two typed turns around a Stop Generation: "a" is submitted and stopped, then "b"
is submitted while the request of "a" has not settled yet. -/
def staleRun : State :=
  run groqConfig [Event.submit "a", Event.stopGenerationClick, Event.submit "b"]

/-- One completed typed turn ("a" answered by "b", spoken to the end by the local
synthesizer), then a click on the microphone. -/
def listeningAfterTurn : State :=
  run groqConfig
    [Event.submit "a", Event.groqSettles 0 (GroqReply.content (some "b")),
      Event.utteranceEnded, Event.micClick false]

/-- Continuous mode is switched on, then one typed turn runs to its end: "Hello" is
answered by "Hi there!", which the local synthesizer speaks to the end. -/
def continuousRun : List Event :=
  [Event.continuousClick, Event.submit "Hello",
    Event.groqSettles 0 (GroqReply.content (some "Hi there!")), Event.utteranceEnded]

/-- A browser without `speechSynthesis`, with the Groq and Murf keys set. -/
def noSynthConfig : Config :=
  { apiKeys := { deepgram := "", groq := "gsk", murf := "mk" },
    hasSpeechRecognition := true, hasSpeechSynthesis := false }

/-- Every assistant entry of a history has an entry right before it, and that entry
is a user entry. -/
def assistantFollowsUser (h : List Message) : Prop :=
  ∀ (i : Nat) (m : Message), h.get? i = some m → m.role = Role.assistant →
    0 < i ∧ ∃ p, h.get? (i - 1) = some p ∧ p.role = Role.user

/-- The `newHistory` of a suspended turn is a paired history followed by the user
utterance of the turn. -/
def turnPaired (t : Turn) : Prop :=
  ∃ (c : List Message) (x : String),
    t.newHistory = c ++ [⟨Role.user, x⟩] ∧ assistantFollowsUser c

/-- The histories a state holds: the `conversationHistory` cell, the locals of the
suspended turns and the values bound in the closures of the capture path. -/
def held (s : State) :
    List Message × List Turn × List (List Message) × List (List Message) ×
      List (List Message) × Option Recorder :=
  (s.conversationHistory, s.turns, s.mediaRequests, s.recorderStops, s.transcriptions,
    s.mediaRecorderRef)

/-- Every history a state holds is paired. -/
def heldPaired (s : State) : Prop :=
  assistantFollowsUser s.conversationHistory ∧
    (∀ t ∈ s.turns, turnPaired t) ∧
    (∀ h ∈ s.mediaRequests, assistantFollowsUser h) ∧
    (∀ h ∈ s.recorderStops, assistantFollowsUser h) ∧
    (∀ h ∈ s.transcriptions, assistantFollowsUser h) ∧
    (∀ r, s.mediaRecorderRef = some r → assistantFollowsUser r.captured)

/-- The pairs (userMessage, history) `getAIResponse` was called with, in order. -/
def getAIResponseCalls (calls : List Call) : List (String × List Message) :=
  calls.filterMap fun c =>
    match c with
    | Call.getAIResponse u h _ => some (u, h)
    | _ => none

/-- A browser with both speech capabilities and no key at all. -/
def noKeyConfig : Config :=
  { apiKeys := { deepgram := "", groq := "", murf := "" },
    hasSpeechRecognition := true, hasSpeechSynthesis := true }

/-- A browser without a speech recognizer, with the Deepgram and Groq keys set: capture
goes through the recorder and the remote transcription. -/
def deepgramConfig : Config :=
  { apiKeys := { deepgram := "dg", groq := "gsk", murf := "" },
    hasSpeechRecognition := false, hasSpeechSynthesis := true }

/-- A recording on the remote path stopped by hand: the microphone is clicked, the
browser grants the microphone, the microphone is clicked again, the recorder fires
`onstop` and the transcription returns "Hello". -/
def stoppedRecordingRun : List Event :=
  [Event.micClick false, Event.userMediaSettles 0 true, Event.micClick false,
    Event.recorderOnstop 0, Event.deepgramSettles 0 (some "Hello")]

/-- A typed turn whose Murf audio arrives and whose `audio.play()` settles as told. -/
def murfPlaybackRun (started : Bool) : List Event :=
  [Event.submit "Hello", Event.groqSettles 0 (GroqReply.content (some "Hi there!")),
    Event.murfFetchSettles 0 (MurfFetch.body (some "https://murf.ai/hello.mp3")),
    Event.audioPlaySettles 0 started]

/-- A live turn next to a stopped one: the microphone is clicked on and off, "a" is
typed and submitted (token 0), the recognizer delivers its final result "b" (token 1),
and Stop Generation aborts the token the ref holds, the one of "b". -/
def liveTurnRun : State :=
  run groqConfig
    [Event.micClick false, Event.micClick false, Event.submit "a",
      Event.recognizerResult "b" true, Event.stopGenerationClick]

/-- A turn started during a replay, on the remote batch path: "a" is answered by "b"
and spoken to the end; a recording is started and stopped; while it is being
transcribed Start Speaking replays "b"; the transcript "c" then starts a turn. -/
def replayTurnRun : List Event :=
  [Event.submit "a", Event.groqSettles 0 (GroqReply.content (some "b")),
    Event.utteranceEnded, Event.micClick false, Event.userMediaSettles 0 true,
    Event.micClick false, Event.toggleSpeakingClick, Event.recorderOnstop 0,
    Event.deepgramSettles 0 (some "c")]

/-! ## General lemmas -/

theorem reachable_foldl (cfg : Config) (events : List Event) :
    ∀ s, Reachable cfg s → Reachable cfg (events.foldl (fun s e => step cfg e s) s) := by
  induction events with
  | nil => intro s hs; exact hs
  | cons e es ih => intro s hs; exact ih _ (Reachable.step e hs)

theorem reachable_run (cfg : Config) (events : List Event) : Reachable cfg (run cfg events) :=
  reachable_foldl cfg events _ Reachable.mount

theorem truthy_iff (x : String) : truthy x = true ↔ x ≠ "" := by
  simp [truthy]

theorem get?_append_length {α : Type} (l : List α) (a : α) :
    (l ++ [a]).get? l.length = some a := by
  simp

theorem murfFetchSettles_keeps (cfg : Config) (i : Nat) (r : MurfFetch) (s : State) :
    (murfFetchSettles cfg i r s).conversationHistory = s.conversationHistory ∧
      speakResponseTexts (murfFetchSettles cfg i r s).calls = speakResponseTexts s.calls := by
  unfold murfFetchSettles
  cases hsp : s.speaks.get? i with
  | none => simp
  | some sp =>
    cases hph : sp.phase with
    | playing a => simp [hph]
    | fetching =>
      rcases r with _ | c | (_ | url)
      all_goals simp only [hph]
      all_goals try split
      all_goals
        simp only [murfFailed, speakResponseReturns, speakWithWebAPI, handleTranscriptCompleteEnd,
          speakResponseTexts]
        cases sp.awaited <;> cases cfg.hasSpeechSynthesis <;> simp

theorem audioPlaySettles_keeps (cfg : Config) (i : Nat) (started : Bool) (s : State) :
    (audioPlaySettles cfg i started s).conversationHistory = s.conversationHistory ∧
      speakResponseTexts (audioPlaySettles cfg i started s).calls = speakResponseTexts s.calls := by
  unfold audioPlaySettles
  cases hsp : s.speaks.get? i with
  | none => simp
  | some sp =>
    cases hph : sp.phase with
    | fetching => simp [hph]
    | playing a =>
      simp only [hph, murfFailed, speakResponseReturns, speakWithWebAPI, handleTranscriptCompleteEnd,
          speakResponseTexts]
      cases started <;> cases sp.awaited <;> cases cfg.hasSpeechSynthesis <;> simp

theorem resume_live (cfg : Config) (t : Turn) (r : String) (mid : State)
    (hr : r ≠ "") (hlive : currentSignalAborted mid = some false) :
    (handleTranscriptCompleteResume cfg t (some r) mid).conversationHistory
        = t.newHistory ++ [⟨Role.assistant, r⟩] ∧
      speakResponseTexts (handleTranscriptCompleteResume cfg t (some r) mid).calls
        = speakResponseTexts mid.calls ++ [r] := by
  have htr : truthy r = true := (truthy_iff r).2 hr
  simp only [handleTranscriptCompleteResume, htr, hlive, speakResponse, if_true]
  simp only [speakResponseReturns, speakWithWebAPI, handleTranscriptCompleteEnd, speakResponseTexts]
  split_ifs <;> simp

theorem begin_with_key (cfg : Config) (h : List Message) (t : String) (s : State)
    (ht : jsTrim t ≠ "") (hkey : truthy cfg.apiKeys.groq = true) :
    handleTranscriptComplete cfg h t s =
      { s with status := "Thinking...", isGenerating := true,
               conversationHistory := h ++ [⟨Role.user, t⟩],
               controllers := s.controllers ++ [false],
               abortControllerRef := some s.controllers.length,
               calls := s.calls ++ [Call.getAIResponse t (h ++ [⟨Role.user, t⟩]) s.controllers.length,
                          Call.fetchGroq (h ++ [⟨Role.user, t⟩]) s.controllers.length],
               turns := s.turns ++ [turnOf h t s] } := by
  have hne : (jsTrim t == "") = false := by simpa using ht
  simp [handleTranscriptComplete, hne, hkey, turnOf]

theorem resume_aborted (cfg : Config) (t : Turn) (ai : Option String) (mid : State)
    (habort : currentSignalAborted mid = some true) :
    handleTranscriptCompleteResume cfg t ai mid = handleTranscriptCompleteEnd mid := by
  cases ai with
  | none => rfl
  | some r => simp only [handleTranscriptCompleteResume, habort]; split_ifs <;> rfl

theorem getAIResponseSettles_keeps (reply : GroqReply) (s : State) :
    (getAIResponseSettles reply s).1.conversationHistory = s.conversationHistory ∧
      (getAIResponseSettles reply s).1.calls = s.calls ∧
      (getAIResponseSettles reply s).1.isSpeaking = s.isSpeaking ∧
      (getAIResponseSettles reply s).1.abortControllerRef = s.abortControllerRef ∧
      (getAIResponseSettles reply s).1.controllers = s.controllers := by
  cases reply <;> simp [getAIResponseSettles]

theorem groqSettles_aborted (cfg : Config) (t : Turn) (reply : GroqReply) (mid : State) (j : Nat)
    (hj : mid.turns.get? j = some t) (href : mid.abortControllerRef = some t.signal)
    (hdead : mid.controllers.getD t.signal false = true) :
    (groqSettles cfg j reply mid).conversationHistory = mid.conversationHistory ∧
      (groqSettles cfg j reply mid).calls = mid.calls ∧
      (groqSettles cfg j reply mid).isGenerating = false ∧
      (groqSettles cfg j reply mid).isSpeaking = mid.isSpeaking := by
  have hcur : currentSignalAborted
      (getAIResponseSettles reply { mid with turns := mid.turns.eraseIdx j }).1 = some true := by
    have hk := getAIResponseSettles_keeps reply { mid with turns := mid.turns.eraseIdx j }
    simp only [currentSignalAborted, hk.2.2.2.1, hk.2.2.2.2]
    simpa [href, List.getD_eq_getElem?_getD] using hdead
  have hfin : groqSettles cfg j reply mid
      = handleTranscriptCompleteEnd
          (getAIResponseSettles reply { mid with turns := mid.turns.eraseIdx j }).1 := by
    simp only [groqSettles, hj]
    exact resume_aborted cfg t _ _ hcur
  have hk := getAIResponseSettles_keeps reply { mid with turns := mid.turns.eraseIdx j }
  rw [hfin]
  simp only [handleTranscriptCompleteEnd]
  exact ⟨hk.1, hk.2.1, trivial, hk.2.2.1⟩

theorem groqSettles_live (cfg : Config) (t : Turn) (reply : GroqReply) (r : String)
    (mid : State) (j : Nat)
    (hj : mid.turns.get? j = some t) (href : mid.abortControllerRef = some t.signal)
    (hlive : mid.controllers.getD t.signal false = false)
    (hreply : ∀ s, (getAIResponseSettles reply s).2 = some r) (hr : r ≠ "") :
    (groqSettles cfg j reply mid).conversationHistory = t.newHistory ++ [⟨Role.assistant, r⟩] ∧
      speakResponseTexts (groqSettles cfg j reply mid).calls
        = speakResponseTexts mid.calls ++ [r] := by
  have hk := getAIResponseSettles_keeps reply { mid with turns := mid.turns.eraseIdx j }
  have hcur : currentSignalAborted
      (getAIResponseSettles reply { mid with turns := mid.turns.eraseIdx j }).1 = some false := by
    simp only [currentSignalAborted, hk.2.2.2.1, hk.2.2.2.2]
    simpa [href, List.getD_eq_getElem?_getD] using hlive
  have key := resume_live cfg t r _ hr hcur
  have hfin : groqSettles cfg j reply mid
      = handleTranscriptCompleteResume cfg t (some r)
          (getAIResponseSettles reply { mid with turns := mid.turns.eraseIdx j }).1 := by
    simp only [groqSettles, hj, hreply]
  rw [hfin]
  refine ⟨key.1, ?_⟩
  rw [key.2, hk.2.1]

theorem eraseIdx_append_length {α : Type} (l : List α) (a : α) :
    (l ++ [a]).eraseIdx l.length = l := by
  induction l with
  | nil => rfl
  | cons b l ih => simp [List.eraseIdx, ih]

theorem get?_set_append_length {α : Type} (l : List α) (a b : α) :
    ((l ++ [a]).set l.length b).get? l.length = some b := by
  simp

theorem paired_nil : assistantFollowsUser [] := by
  intro i m h
  simp at h

theorem paired_append_user (c : List Message) (x : String) (hc : assistantFollowsUser c) :
    assistantFollowsUser (c ++ [⟨Role.user, x⟩]) := by
  intro i m hi hm
  simp only [List.get?_eq_getElem?] at hi ⊢
  by_cases hlt : i < c.length
  · rw [List.getElem?_append_left hlt] at hi
    obtain ⟨hpos, p, hp, hpu⟩ := hc i m (by simpa using hi) hm
    refine ⟨hpos, p, ?_, hpu⟩
    rw [List.getElem?_append_left (by omega)]
    simpa using hp
  · rw [List.getElem?_append_right (by omega)] at hi
    have h0 : i - c.length = 0 := by
      by_contra hne
      have : ([⟨Role.user, x⟩] : List Message)[i - c.length]? = none := by
        apply List.getElem?_eq_none
        simp
        omega
      rw [this] at hi
      cases hi
    rw [h0] at hi
    simp at hi
    rw [← hi] at hm
    cases hm

theorem paired_append_assistant (c : List Message) (x r : String)
    (hc : assistantFollowsUser c) :
    assistantFollowsUser (c ++ [⟨Role.user, x⟩] ++ [⟨Role.assistant, r⟩]) := by
  have hn := paired_append_user c x hc
  intro i m hi hm
  simp only [List.get?_eq_getElem?] at hi ⊢
  by_cases hlt : i < (c ++ [(⟨Role.user, x⟩ : Message)]).length
  · rw [List.getElem?_append_left hlt] at hi
    obtain ⟨hpos, p, hp, hpu⟩ := hn i m (by simpa using hi) hm
    refine ⟨hpos, p, ?_, hpu⟩
    rw [List.getElem?_append_left (by omega)]
    simpa using hp
  · have hlen : (c ++ [(⟨Role.user, x⟩ : Message)]).length = c.length + 1 := by simp
    have hge : c.length + 1 ≤ i := by omega
    by_cases heq : i = c.length + 1
    · subst heq
      refine ⟨by omega, ⟨Role.user, x⟩, ?_, rfl⟩
      rw [List.getElem?_append_left (by simp)]
      simp
    · have : (c ++ [(⟨Role.user, x⟩ : Message)] ++ [⟨Role.assistant, r⟩])[i]? = none := by
        apply List.getElem?_eq_none
        simp
        omega
      rw [this] at hi
      cases hi

theorem heldPaired_congr {s s1 : State} (h : held s1 = held s) (hs : heldPaired s) :
    heldPaired s1 := by
  simp only [held, Prod.mk.injEq] at h
  obtain ⟨h1, h2, h3, h4, h5, h6⟩ := h
  simpa only [heldPaired, h1, h2, h3, h4, h5, h6] using hs

theorem held_handleTranscriptCompleteEnd (s : State) :
    held (handleTranscriptCompleteEnd s) = held s := rfl

theorem held_speakWithWebAPI (cfg : Config) (x : String) (s : State) :
    held (speakWithWebAPI cfg x s) = held s := by
  unfold speakWithWebAPI
  split <;> rfl

theorem held_speakResponseReturns (awaited : Bool) (s : State) :
    held (speakResponseReturns awaited s) = held s := by
  unfold speakResponseReturns
  split <;> rfl

theorem held_murfFailed (cfg : Config) (sp : Speak) (s : State) :
    held (murfFailed cfg sp s) = held s := by
  unfold murfFailed
  rw [held_speakResponseReturns, held_speakWithWebAPI]

theorem held_speakResponse (cfg : Config) (x : String) (awaited : Bool) (s : State) :
    held (speakResponse cfg x awaited s) = held s := by
  unfold speakResponse
  split
  · rfl
  · rw [held_speakResponseReturns, held_speakWithWebAPI]
    rfl

theorem held_murfFetchSettles (cfg : Config) (i : Nat) (r : MurfFetch) (s : State) :
    held (murfFetchSettles cfg i r s) = held s := by
  unfold murfFetchSettles
  split
  · rfl
  · split
    · rfl
    · split
      · split
        · rfl
        · rw [held_murfFailed]; rfl
      · rw [held_murfFailed]; rfl

theorem held_audioPlaySettles (cfg : Config) (i : Nat) (started : Bool) (s : State) :
    held (audioPlaySettles cfg i started s) = held s := by
  unfold audioPlaySettles
  split
  · rfl
  · split
    · rfl
    · split
      · rw [held_speakResponseReturns]; rfl
      · rw [held_murfFailed]; rfl

theorem held_stopGeneration (s : State) : held (stopGeneration s) = held s := by
  unfold stopGeneration abortCurrent
  split <;> rfl

theorem held_stopSpeaking (cfg : Config) (s s1 : State) (h : stopSpeaking cfg s = Except.ok s1) :
    held s1 = held s := by
  unfold stopSpeaking at h
  split at h
  · cases h
  · simp only [Except.ok.injEq] at h
    rw [← h]
    split <;> split <;> rfl

theorem held_toggleSpeaking (cfg : Config) (s : State) : held (toggleSpeaking cfg s) = held s := by
  unfold toggleSpeaking
  split
  · split
    · rename_i s1 h
      exact held_stopSpeaking cfg s s1 h
    · rfl
  · split
    · exact held_speakResponse cfg _ _ s
    · rfl

theorem held_getAIResponseSettles (reply : GroqReply) (s : State) :
    held (getAIResponseSettles reply s).1 = held s := by
  cases reply <;> rfl

theorem held_timerFires (i : Nat) (s : State) : held (timerFires i s) = held s := by
  unfold timerFires
  split
  · rfl
  · split <;> rfl

theorem held_afterRender (old new : State) : held (afterRender old new) = held new := by
  unfold afterRender continuousModeEffect
  split
  · split <;> rfl
  · rfl

theorem paired_resume (cfg : Config) (t : Turn) (ai : Option String) (s : State)
    (ht : turnPaired t) (hs : heldPaired s) :
    heldPaired (handleTranscriptCompleteResume cfg t ai s) := by
  unfold handleTranscriptCompleteResume
  split
  · exact heldPaired_congr (held_handleTranscriptCompleteEnd s) hs
  · split
    · split
      · exact hs
      · exact heldPaired_congr (held_handleTranscriptCompleteEnd s) hs
      · apply heldPaired_congr (held_speakResponse cfg _ _ _)
        obtain ⟨c, x, hc, hp⟩ := ht
        refine ⟨?_, hs.2⟩
        show assistantFollowsUser (t.newHistory ++ [_])
        rw [hc]
        exact paired_append_assistant c x _ hp
    · exact heldPaired_congr (held_handleTranscriptCompleteEnd s) hs

theorem paired_begin (cfg : Config) (h : List Message) (text : String) (s : State)
    (hh : assistantFollowsUser h) (hs : heldPaired s) :
    heldPaired (handleTranscriptComplete cfg h text s) := by
  have ht : turnPaired (turnOf h text s) := ⟨h, text, rfl, hh⟩
  unfold handleTranscriptComplete
  split
  · exact heldPaired_congr rfl hs
  · simp only []
    split
    · refine ⟨paired_append_user h text hh, ?_, hs.2.2⟩
      intro t1 ht1
      rcases List.mem_append.1 ht1 with hold | hnew
      · exact hs.2.1 t1 hold
      · rw [List.mem_singleton.1 hnew]
        exact ht
    · apply paired_resume cfg _ _ _ ht
      exact ⟨paired_append_user h text hh, hs.2⟩

theorem paired_eraseTurn (i : Nat) (s : State) (hs : heldPaired s) :
    heldPaired { s with turns := s.turns.eraseIdx i } :=
  ⟨hs.1, fun t ht => hs.2.1 t (List.mem_of_mem_eraseIdx ht), hs.2.2⟩

theorem paired_groqSettles (cfg : Config) (i : Nat) (reply : GroqReply) (s : State)
    (hs : heldPaired s) : heldPaired (groqSettles cfg i reply s) := by
  unfold groqSettles
  split
  · exact hs
  · rename_i t ht
    apply paired_resume cfg t _ _ (hs.2.1 t (List.get?_mem ht))
    exact heldPaired_congr (held_getAIResponseSettles reply _) (paired_eraseTurn i s hs)

theorem paired_startListening (cfg : Config) (startThrows : Bool) (s : State)
    (hs : heldPaired s) :
    heldPaired (startListening cfg s.conversationHistory startThrows s) := by
  unfold startListening
  simp only []
  split
  · split <;> exact heldPaired_congr rfl hs
  · split
    · refine ⟨hs.1, hs.2.1, ?_, hs.2.2.2⟩
      intro h hh
      rcases List.mem_append.1 hh with hold | hnew
      · exact hs.2.2.1 h hold
      · rw [List.mem_singleton.1 hnew]
        exact hs.1
    · exact heldPaired_congr rfl hs

theorem paired_stopListening (s : State) (hs : heldPaired s) : heldPaired (stopListening s) := by
  have h1 : heldPaired
      (if s.recognitionRef then { s with calls := s.calls ++ [Call.recognitionStop] } else s) := by
    split
    · exact heldPaired_congr rfl hs
    · exact hs
  unfold stopListening
  simp only []
  generalize (if s.recognitionRef then
    { s with calls := s.calls ++ [Call.recognitionStop] } else s) = s1 at h1 ⊢
  apply heldPaired_congr (s := match s1.mediaRecorderRef with
    | some r =>
      if r.recording then
        { s1 with calls := s1.calls ++ [Call.recorderStop],
                  mediaRecorderRef := some { r with recording := false },
                  recorderStops := s1.recorderStops ++ [r.captured] }
      else s1
    | none => s1) rfl
  split
  · rename_i r hr
    split
    · refine ⟨h1.1, h1.2.1, h1.2.2.1, ?_, h1.2.2.2.2.1, ?_⟩
      · intro h hh
        rcases List.mem_append.1 hh with hold | hnew
        · exact h1.2.2.2.1 h hold
        · rw [List.mem_singleton.1 hnew]
          exact h1.2.2.2.2.2 r hr
      · intro r1 hr1
        simp only [Option.some.injEq] at hr1
        rw [← hr1]
        exact h1.2.2.2.2.2 r hr
    · exact h1
  · exact h1

theorem paired_userMediaSettles (i : Nat) (granted : Bool) (s : State) (hs : heldPaired s) :
    heldPaired (userMediaSettles i granted s) := by
  unfold userMediaSettles
  split
  · exact hs
  · rename_i captured hc
    have hcap : assistantFollowsUser captured := hs.2.2.1 captured (List.get?_mem hc)
    simp only []
    split
    · refine ⟨hs.1, hs.2.1, fun h hh => hs.2.2.1 h (List.mem_of_mem_eraseIdx hh), hs.2.2.2.1,
        hs.2.2.2.2.1, ?_⟩
      intro r hr
      simp only [Option.some.injEq] at hr
      rw [← hr]
      exact hcap
    · exact ⟨hs.1, hs.2.1, fun h hh => hs.2.2.1 h (List.mem_of_mem_eraseIdx hh), hs.2.2.2⟩

theorem paired_recorderOnstop (i : Nat) (s : State) (hs : heldPaired s) :
    heldPaired (recorderOnstop i s) := by
  unfold recorderOnstop
  split
  · exact hs
  · rename_i captured hc
    have hcap : assistantFollowsUser captured := hs.2.2.2.1 captured (List.get?_mem hc)
    refine ⟨hs.1, hs.2.1, hs.2.2.1, fun h hh => hs.2.2.2.1 h (List.mem_of_mem_eraseIdx hh), ?_,
      hs.2.2.2.2.2⟩
    intro h hh
    rcases List.mem_append.1 hh with hold | hnew
    · exact hs.2.2.2.2.1 h hold
    · rw [List.mem_singleton.1 hnew]
      exact hcap

theorem paired_deepgramSettles (cfg : Config) (i : Nat) (reply : Option String) (s : State)
    (hs : heldPaired s) : heldPaired (deepgramSettles cfg i reply s) := by
  unfold deepgramSettles
  split
  · exact hs
  · rename_i captured hc
    have hcap : assistantFollowsUser captured := hs.2.2.2.2.1 captured (List.get?_mem hc)
    have h1 : heldPaired { s with transcriptions := s.transcriptions.eraseIdx i } :=
      ⟨hs.1, hs.2.1, hs.2.2.1, hs.2.2.2.1,
        fun h hh => hs.2.2.2.2.1 h (List.mem_of_mem_eraseIdx hh), hs.2.2.2.2.2⟩
    simp only []
    split
    · exact heldPaired_congr rfl h1
    · exact paired_begin cfg captured _ _ hcap (heldPaired_congr rfl h1)

theorem paired_handle (cfg : Config) (e : Event) (s : State) (hs : heldPaired s) :
    heldPaired (handle cfg e s) := by
  cases e with
  | micClick startThrows =>
    simp only [handle, toggleListening]
    split
    · exact hs
    · split
      · exact paired_stopListening s hs
      · exact paired_startListening cfg startThrows s hs
  | submit value =>
    simp only [handle, submit]
    split
    · exact hs
    · split
      · exact paired_begin cfg _ _ _ hs.1 hs
      · exact hs
  | stopGenerationClick =>
    simp only [handle]
    split
    · exact heldPaired_congr (held_stopGeneration s) hs
    · exact hs
  | toggleSpeakingClick =>
    simp only [handle]
    split
    · exact heldPaired_congr (held_toggleSpeaking cfg s) hs
    · exact hs
  | continuousClick => exact heldPaired_congr rfl hs
  | darkClick => exact heldPaired_congr rfl hs
  | clearClick =>
    simp only [handle]
    split
    · exact hs
    · exact ⟨paired_nil, hs.2⟩
  | recognizerResult transcriptText isFinal =>
    simp only [handle, onresult]
    split
    · split
      · exact paired_begin cfg _ _ _ paired_nil (heldPaired_congr rfl hs)
      · exact heldPaired_congr rfl hs
    · exact hs
  | recognizerError error =>
    simp only [handle]
    split
    · exact heldPaired_congr rfl hs
    · exact hs
  | recognizerEnd =>
    simp only [handle]
    split
    · exact heldPaired_congr rfl hs
    · exact hs
  | groqSettles i reply => exact paired_groqSettles cfg i reply s hs
  | murfFetchSettles i r => exact heldPaired_congr (held_murfFetchSettles cfg i r s) hs
  | audioPlaySettles i started => exact heldPaired_congr (held_audioPlaySettles cfg i started s) hs
  | audioEnded audio =>
    simp only [handle]
    split
    · exact heldPaired_congr rfl hs
    · exact hs
  | audioError audio =>
    simp only [handle]
    split
    · exact heldPaired_congr rfl hs
    · exact hs
  | utteranceEnded =>
    simp only [handle]
    split
    · exact heldPaired_congr rfl hs
    · exact hs
  | userMediaSettles i granted => exact paired_userMediaSettles i granted s hs
  | recorderOnstop i => exact paired_recorderOnstop i s hs
  | deepgramSettles i reply => exact paired_deepgramSettles cfg i reply s hs
  | timerFires i => exact heldPaired_congr (held_timerFires i s) hs

theorem paired_reachable (cfg : Config) (s : State) (hs : Reachable cfg s) : heldPaired s := by
  induction hs with
  | mount =>
    refine ⟨paired_nil, ?_, ?_, ?_, ?_, ?_⟩
    · intro t ht; cases ht
    · intro h hh; cases hh
    · intro h hh; cases hh
    · intro h hh; cases hh
    · intro r hr; cases hr
  | step e _ ih =>
    exact heldPaired_congr (held_afterRender _ _) (paired_handle cfg e _ ih)

theorem begin_without_key (cfg : Config) (h : List Message) (t : String) (s : State)
    (ht : jsTrim t ≠ "") (hkey : truthy cfg.apiKeys.groq = false) :
    handleTranscriptComplete cfg h t s =
      speakResponse cfg configureKeyReply true
        { s with status := "Groq API key not configured", isGenerating := true,
                 response := configureKeyReply,
                 conversationHistory := h ++ [⟨Role.user, t⟩] ++ [⟨Role.assistant, configureKeyReply⟩],
                 controllers := s.controllers ++ [false],
                 abortControllerRef := some s.controllers.length,
                 calls := s.calls ++ [Call.getAIResponse t (h ++ [⟨Role.user, t⟩])
                            s.controllers.length] } := by
  have hne : (jsTrim t == "") = false := by simpa using ht
  have htr : truthy configureKeyReply = true := by decide
  simp [handleTranscriptComplete, hne, hkey, turnOf, handleTranscriptCompleteResume, htr,
    currentSignalAborted, List.getD_eq_getElem?_getD]

theorem stopListening_recording (s : State) (r : Recorder)
    (hrec : s.mediaRecorderRef = some r) (hon : r.recording = true) :
    stopListening s =
      { s with calls := (if s.recognitionRef then s.calls ++ [Call.recognitionStop] else s.calls)
                  ++ [Call.recorderStop],
               mediaRecorderRef := some { r with recording := false },
               recorderStops := s.recorderStops ++ [r.captured],
               isListening := false, status := "Processing..." } := by
  unfold stopListening
  cases hr : s.recognitionRef <;> simp [hrec, hon, hr]

theorem stopListening_quiet (s : State) :
    (stopListening s).isListening = false ∧ (stopListening s).status = "Processing..." ∧
      (stopListening s).conversationHistory = s.conversationHistory ∧
      getAIResponseCalls (stopListening s).calls = getAIResponseCalls s.calls ∧
      (stopListening s).transcriptions = s.transcriptions := by
  unfold stopListening
  simp only []
  split <;> split <;> try split
  all_goals simp [getAIResponseCalls]

theorem completed_turn_live_ref (cfg : Config) (h : List Message) (t r : String) (s : State)
    (ht : jsTrim t ≠ "") (hr : r ≠ "") (hkey : truthy cfg.apiKeys.groq = true) :
    submit cfg t s = handleTranscriptComplete cfg s.conversationHistory t s ∧
      (handleTranscriptComplete cfg h t s).turns = s.turns ++ [turnOf h t s] ∧
      (handleTranscriptComplete cfg h t s).abortControllerRef = some (turnOf h t s).signal ∧
      (handleTranscriptComplete cfg h t s).controllers.getD (turnOf h t s).signal false = false ∧
      ∀ (mid : State) (j : Nat), mid.turns.get? j = some (turnOf h t s) →
        mid.abortControllerRef = some (turnOf h t s).signal →
        mid.controllers.getD (turnOf h t s).signal false = false →
        (groqSettles cfg j (GroqReply.content (some r)) mid).conversationHistory
            = h ++ [⟨Role.user, t⟩, ⟨Role.assistant, r⟩] ∧
          speakResponseTexts (groqSettles cfg j (GroqReply.content (some r)) mid).calls
            = speakResponseTexts mid.calls ++ [r] ∧
          ∀ (i : Nat) (mf : MurfFetch) (started : Bool),
            (audioPlaySettles cfg i started (murfFetchSettles cfg i mf
                (groqSettles cfg j (GroqReply.content (some r)) mid))).conversationHistory
              = h ++ [⟨Role.user, t⟩, ⟨Role.assistant, r⟩] ∧
            speakResponseTexts (audioPlaySettles cfg i started (murfFetchSettles cfg i mf
                (groqSettles cfg j (GroqReply.content (some r)) mid))).calls
              = speakResponseTexts mid.calls ++ [r] := by
  have hsub : submit cfg t s = handleTranscriptComplete cfg s.conversationHistory t s := by
    have htr : truthy (jsTrim t) = true := (truthy_iff _).2 ht
    simp [submit, htr]
  refine ⟨hsub, ?_⟩
  rw [begin_with_key cfg h t s ht hkey]
  refine ⟨rfl, rfl, ?_, ?_⟩
  · simp [turnOf, List.getD_eq_getElem?_getD]
  · intro mid j hj href hlive
    have hcur : currentSignalAborted
        { mid with turns := mid.turns.eraseIdx j } = some false := by
      simpa [currentSignalAborted, href, List.getD_eq_getElem?_getD] using hlive
    have key := resume_live cfg (turnOf h t s) r { mid with turns := mid.turns.eraseIdx j } hr hcur
    have hfin : groqSettles cfg j (GroqReply.content (some r)) mid
        = handleTranscriptCompleteResume cfg (turnOf h t s) (some r)
            { mid with turns := mid.turns.eraseIdx j } := by
      simp only [groqSettles, hj, getAIResponseSettles]
    rw [hfin]
    have h1 : (turnOf h t s).newHistory ++ [⟨Role.assistant, r⟩]
        = h ++ [⟨Role.user, t⟩, ⟨Role.assistant, r⟩] := by simp [turnOf]
    refine ⟨key.1.trans h1, key.2, ?_⟩
    intro i mf started
    rw [(audioPlaySettles_keeps cfg i started _).1, (audioPlaySettles_keeps cfg i started _).2,
      (murfFetchSettles_keeps cfg i mf _).1, (murfFetchSettles_keeps cfg i mf _).2]
    exact ⟨key.1.trans h1, key.2⟩

theorem stopListening_recognizer (s : State)
    (hrec : s.recognitionRef = true) (hnone : s.mediaRecorderRef = none) :
    stopListening s =
      { s with calls := s.calls ++ [Call.recognitionStop], isListening := false,
               status := "Processing..." } := by
  unfold stopListening
  simp [hrec, hnone]

/-! ## C1: the activity flags -/

/-- C1 (counterexample): with the Murf key set, after a typed "Hello" whose generation
returns "Hi there!" the component is in a reachable state where isGenerating and
isSpeaking are both true: handleTranscriptComplete is suspended on speakResponse and
clears isGenerating only when that call returns. -/
theorem C1_generating_and_speaking_overlap :
    Reachable murfConfig
        (run murfConfig
          [Event.submit "Hello", Event.groqSettles 0 (GroqReply.content (some "Hi there!"))]) ∧
      (run murfConfig
          [Event.submit "Hello",
            Event.groqSettles 0 (GroqReply.content (some "Hi there!"))]).isGenerating = true ∧
      (run murfConfig
          [Event.submit "Hello",
            Event.groqSettles 0 (GroqReply.content (some "Hi there!"))]).isSpeaking = true ∧
      atMostOneActive
        (run murfConfig
          [Event.submit "Hello",
            Event.groqSettles 0 (GroqReply.content (some "Hi there!"))]) = false :=
  ⟨reachable_run _ _, by decide, by decide, by decide⟩

/-- C1 (amended): the flags are exclusive only at the entry of a turn.  In a state
where the typed-submit affordance is enabled (no flag is true) and with the Groq key
set, a typed submit and a click on the microphone each lead to a state in which at
most one flag is true; and the microphone click leaves isGenerating and isSpeaking
false. -/
theorem C1_guarded_entry (cfg : Config) (s : State) (value : String) (startThrows : Bool)
    (henabled : inputDisabled s = false) (hkey : truthy cfg.apiKeys.groq = true) :
    atMostOneActive (handle cfg (Event.submit value) s) = true ∧
      atMostOneActive (handle cfg (Event.micClick startThrows) s) = true ∧
      (handle cfg (Event.micClick startThrows) s).isGenerating = false ∧
      (handle cfg (Event.micClick startThrows) s).isSpeaking = false := by
  simp only [inputDisabled, Bool.or_eq_false_iff] at henabled
  obtain ⟨⟨hl, hsp⟩, hg⟩ := henabled
  refine ⟨?_, ?_, ?_, ?_⟩
  · simp only [handle, inputDisabled, hl, hsp, hg, submit, handleTranscriptComplete, hkey]
    by_cases hv : truthy (jsTrim value) = true
    · have hne : (jsTrim value == "") = false := by
        simpa [truthy] using hv
      simp [hv, hne, atMostOneActive, hl, hsp]
    · simp [hv, atMostOneActive, hl, hsp, hg]
  all_goals
    simp only [handle, micDisabled, hsp, hg, toggleListening, hl, startListening]
    cases s.recognitionRef <;> cases startThrows <;> cases truthy cfg.apiKeys.deepgram <;>
      simp [atMostOneActive, hsp, hg]

/-- The mounted component: the typed-submit affordance is enabled and a turn can start. -/
theorem C1_guarded_entry_witness :
    inputDisabled (mount groqConfig) = false ∧ truthy groqConfig.apiKeys.groq = true ∧
      atMostOneActive (handle groqConfig (Event.submit "Hello") (mount groqConfig)) = true ∧
      atMostOneActive (handle groqConfig (Event.micClick false) (mount groqConfig)) = true :=
  have key := C1_guarded_entry groqConfig (mount groqConfig) "Hello" false (by decide) (by decide)
  ⟨by decide, by decide, key.1, key.2.1⟩

/-! ## C2: a completed turn -/

/-- C2 (the code at the failing input): the microphone is clicked on and off, "a" is
typed and submitted, the final recognizer result "b" starts a second turn, and Stop
Generation aborts the token of "b".  The token of "a" is still live (the controllers
are [false, true]) when its request returns the text "r", but the test of line 229
reads the token the ref holds now, the aborted one of "b": the result is dropped,
conversationHistory stays [user b] and speakResponse is not called.  The code does what
the claim says in Scenario A ("Hello" answered by "Hi there!"), and in every state where
the ref still holds the token of the turn whose result is processed. -/
theorem C2_live_turn_result_dropped :
    liveTurnRun.turns = [⟨[⟨Role.user, "a"⟩], 0⟩, ⟨[⟨Role.user, "b"⟩], 1⟩] ∧
      liveTurnRun.controllers = [false, true] ∧
      liveTurnRun.controllers.getD 0 false = false ∧
      liveTurnRun.abortControllerRef = some 1 ∧
      liveTurnRun.conversationHistory = [⟨Role.user, "b"⟩] ∧
      (step groqConfig (Event.groqSettles 0 (GroqReply.content (some "r")))
          liveTurnRun).conversationHistory = [⟨Role.user, "b"⟩] ∧
      (step groqConfig (Event.groqSettles 0 (GroqReply.content (some "r")))
          liveTurnRun).conversationHistory
        ≠ [] ++ [⟨Role.user, "a"⟩, ⟨Role.assistant, "r"⟩] ∧
      speakResponseTexts (step groqConfig (Event.groqSettles 0 (GroqReply.content (some "r")))
          liveTurnRun).calls = [] ∧
      (run groqConfig [Event.submit "Hello",
          Event.groqSettles 0 (GroqReply.content (some "Hi there!"))]).conversationHistory
        = [⟨Role.user, "Hello"⟩, ⟨Role.assistant, "Hi there!"⟩] ∧
      speakResponseTexts (run groqConfig [Event.submit "Hello",
          Event.groqSettles 0 (GroqReply.content (some "Hi there!"))]).calls = ["Hi there!"] ∧
      ∀ (cfg : Config) (h : List Message) (t r : String) (s mid : State) (j : Nat),
        jsTrim t ≠ "" → r ≠ "" → truthy cfg.apiKeys.groq = true →
        mid.turns.get? j = some (turnOf h t s) →
        mid.abortControllerRef = some (turnOf h t s).signal →
        mid.controllers.getD (turnOf h t s).signal false = false →
        (groqSettles cfg j (GroqReply.content (some r)) mid).conversationHistory
            = h ++ [⟨Role.user, t⟩, ⟨Role.assistant, r⟩] ∧
          speakResponseTexts (groqSettles cfg j (GroqReply.content (some r)) mid).calls
            = speakResponseTexts mid.calls ++ [r] := by
  refine ⟨by decide, by decide, by decide, by decide, by decide, by decide, by decide,
    by decide, by decide, by decide, ?_⟩
  intro cfg h t r s mid j ht hr hkey hj href hlive
  have key := (completed_turn_live_ref cfg h t r s ht hr hkey).2.2.2.2 mid j hj href hlive
  exact ⟨key.1, key.2.1⟩

/-! ## C3: a canceled turn -/

/-- C3 (counterexample): on the remote batch path a recording is stopped, Start
Speaking replays the previous reply while the recording is transcribed, and the
transcript "c" starts a turn (history [user a, assistant b], isSpeaking true).  Stop
Generation aborts its token and its request ends with the AbortError: the history ends
as [user a, assistant b, user c], speakResponse is not invoked again and isGenerating is
false, but the turn ends with isSpeaking true: the canceled turn leaves the flag of the
replay alone.  And when the ref no longer holds the aborted token ("a" stopped, "b"
typed, then the request of "a" returns the text "r"), the result is not discarded. -/
theorem C3_canceled_turn_keeps_speaking :
    (run deepgramConfig (replayTurnRun.take 8)).conversationHistory
        = [⟨Role.user, "a"⟩, ⟨Role.assistant, "b"⟩] ∧
      (run deepgramConfig (replayTurnRun.take 8)).isSpeaking = true ∧
      speakResponseTexts (run deepgramConfig (replayTurnRun.take 8)).calls = ["b", "b"] ∧
      (run deepgramConfig replayTurnRun).turns
        = [⟨[⟨Role.user, "a"⟩, ⟨Role.assistant, "b"⟩, ⟨Role.user, "c"⟩], 1⟩] ∧
      (run deepgramConfig (replayTurnRun ++ [Event.stopGenerationClick])).controllers
        = [false, true] ∧
      (run deepgramConfig (replayTurnRun ++ [Event.stopGenerationClick,
          Event.groqSettles 0 GroqReply.abortError])).conversationHistory
        = [⟨Role.user, "a"⟩, ⟨Role.assistant, "b"⟩] ++ [⟨Role.user, "c"⟩] ∧
      speakResponseTexts (run deepgramConfig (replayTurnRun ++ [Event.stopGenerationClick,
          Event.groqSettles 0 GroqReply.abortError])).calls = ["b", "b"] ∧
      (run deepgramConfig (replayTurnRun ++ [Event.stopGenerationClick,
          Event.groqSettles 0 GroqReply.abortError])).isGenerating = false ∧
      (run deepgramConfig (replayTurnRun ++ [Event.stopGenerationClick,
          Event.groqSettles 0 GroqReply.abortError])).isSpeaking = true ∧
      staleRun.controllers = [true, false] ∧
      (step groqConfig (Event.groqSettles 0 (GroqReply.content (some "r")))
          staleRun).conversationHistory = [⟨Role.user, "a"⟩, ⟨Role.assistant, "r"⟩] ∧
      speakResponseTexts (step groqConfig (Event.groqSettles 0 (GroqReply.content (some "r")))
          staleRun).calls = ["r"] := by
  refine ⟨?_, ?_, ?_, ?_, ?_, ?_, ?_, ?_, ?_, ?_, ?_, ?_⟩ <;> decide

/-- C3 (amended): for a handleTranscriptComplete(t) run by a closure whose
conversationHistory is h, with the Groq key set: when stopGeneration aborts the turn's
token and the result is processed next, whatever getAIResponse returns (null after an
AbortError, a text that had already resolved, or the error reply) is discarded:
conversationHistory ends as h ++ [user t], speakResponse is not invoked, isGenerating
ends false and isSpeaking is as it was when the turn started.  More generally, in any
state where the ref holds this turn's token and the token is aborted, processing the
result leaves conversationHistory, the calls and isSpeaking as they were and clears
isGenerating. -/
theorem C3_canceled_turn (cfg : Config) (h : List Message) (t : String) (s : State)
    (reply : GroqReply)
    (ht : jsTrim t ≠ "") (hkey : truthy cfg.apiKeys.groq = true) :
    (groqSettles cfg s.turns.length reply
        (stopGeneration (handleTranscriptComplete cfg h t s))).conversationHistory
        = h ++ [⟨Role.user, t⟩] ∧
      speakResponseTexts (groqSettles cfg s.turns.length reply
        (stopGeneration (handleTranscriptComplete cfg h t s))).calls
        = speakResponseTexts s.calls ∧
      (groqSettles cfg s.turns.length reply
        (stopGeneration (handleTranscriptComplete cfg h t s))).isGenerating = false ∧
      (groqSettles cfg s.turns.length reply
        (stopGeneration (handleTranscriptComplete cfg h t s))).isSpeaking = s.isSpeaking ∧
      ∀ (mid : State) (j : Nat), mid.turns.get? j = some (turnOf h t s) →
        mid.abortControllerRef = some (turnOf h t s).signal →
        mid.controllers.getD (turnOf h t s).signal false = true →
        (groqSettles cfg j reply mid).conversationHistory = mid.conversationHistory ∧
          speakResponseTexts (groqSettles cfg j reply mid).calls = speakResponseTexts mid.calls ∧
          (groqSettles cfg j reply mid).isGenerating = false ∧
          (groqSettles cfg j reply mid).isSpeaking = mid.isSpeaking := by
  have hgen : ∀ (mid : State) (j : Nat), mid.turns.get? j = some (turnOf h t s) →
        mid.abortControllerRef = some (turnOf h t s).signal →
        mid.controllers.getD (turnOf h t s).signal false = true →
        (groqSettles cfg j reply mid).conversationHistory = mid.conversationHistory ∧
          speakResponseTexts (groqSettles cfg j reply mid).calls = speakResponseTexts mid.calls ∧
          (groqSettles cfg j reply mid).isGenerating = false ∧
          (groqSettles cfg j reply mid).isSpeaking = mid.isSpeaking := by
    intro mid j hj href hdead
    have k := groqSettles_aborted cfg (turnOf h t s) reply mid j hj href hdead
    exact ⟨k.1, by rw [k.2.1], k.2.2.1, k.2.2.2⟩
  have hb := begin_with_key cfg h t s ht hkey
  have k := hgen (stopGeneration (handleTranscriptComplete cfg h t s)) s.turns.length
    (by rw [hb]; simp [stopGeneration, abortCurrent])
    (by rw [hb]; simp [stopGeneration, abortCurrent, turnOf])
    (by rw [hb]; simp [stopGeneration, abortCurrent, turnOf, List.getD_eq_getElem?_getD])
  refine ⟨?_, ?_, k.2.2.1, ?_, hgen⟩
  · rw [k.1, hb]; simp [stopGeneration, abortCurrent]
  · rw [k.2.1, hb]; simp [stopGeneration, abortCurrent, speakResponseTexts]
  · rw [k.2.2.2, hb]; simp [stopGeneration, abortCurrent]

/-- Scenario C: "Hello" typed into the mounted component, then Stop Generation. -/
theorem C3_canceled_turn_witness :
    jsTrim "Hello" ≠ "" ∧ truthy groqConfig.apiKeys.groq = true ∧
      (groqSettles groqConfig 0 GroqReply.abortError
        (stopGeneration (handleTranscriptComplete groqConfig [] "Hello"
          (mount groqConfig)))).conversationHistory = [⟨Role.user, "Hello"⟩] ∧
      (groqSettles groqConfig 0 GroqReply.abortError
        (stopGeneration (handleTranscriptComplete groqConfig [] "Hello"
          (mount groqConfig)))).isGenerating = false ∧
      (groqSettles groqConfig 0 GroqReply.abortError
        (stopGeneration (handleTranscriptComplete groqConfig [] "Hello"
          (mount groqConfig)))).isSpeaking = false :=
  have key := C3_canceled_turn groqConfig [] "Hello" (mount groqConfig) GroqReply.abortError
    (by decide) (by decide)
  ⟨by decide, by decide, key.1, key.2.2.1, key.2.2.2.1⟩

/-! ## C4: stale completions -/

/-- C4 (the code at the failing input): the microphone is clicked on and off, "a" is
typed and submitted, and the final recognizer result "b" starts a second turn, which
installs a fresh AbortController, before the request of "a" settles.  At that point
isGenerating is true, isSpeaking is false and the history is [user b].  When the request
of "a" then returns the text "r", the test of line 229 reads the token the ref holds
now, the live token of "b": the stale completion overwrites the history with
[user a, assistant r], sets isSpeaking, calls speakResponse and clears isGenerating.
Likewise when "a" is invalidated by Stop Generation and "b" is typed before the request
of "a" ends with its AbortError: the completion still runs the last two statements of
handleTranscriptComplete and clears isGenerating under the turn of "b". -/
theorem C4_stale_completion_acts :
    overtakenRun.isGenerating = true ∧
      overtakenRun.isSpeaking = false ∧
      overtakenRun.conversationHistory = [⟨Role.user, "b"⟩] ∧
      overtakenRun.turns = [⟨[⟨Role.user, "a"⟩], 0⟩, ⟨[⟨Role.user, "b"⟩], 1⟩] ∧
      overtakenRun.controllers = [false, false] ∧
      overtakenRun.abortControllerRef = some 1 ∧
      (step groqConfig (Event.groqSettles 0 (GroqReply.content (some "r")))
          overtakenRun).conversationHistory = [⟨Role.user, "a"⟩, ⟨Role.assistant, "r"⟩] ∧
      (step groqConfig (Event.groqSettles 0 (GroqReply.content (some "r")))
          overtakenRun).isSpeaking = true ∧
      (step groqConfig (Event.groqSettles 0 (GroqReply.content (some "r")))
          overtakenRun).isGenerating = false ∧
      speakResponseTexts (step groqConfig (Event.groqSettles 0 (GroqReply.content (some "r")))
          overtakenRun).calls = ["r"] ∧
      staleRun.isGenerating = true ∧
      staleRun.turns = [⟨[⟨Role.user, "a"⟩], 0⟩, ⟨[⟨Role.user, "a"⟩, ⟨Role.user, "b"⟩], 1⟩] ∧
      staleRun.controllers = [true, false] ∧
      (step groqConfig (Event.groqSettles 0 GroqReply.abortError) staleRun).isGenerating
        = false := by
  refine ⟨?_, ?_, ?_, ?_, ?_, ?_, ?_, ?_, ?_, ?_, ?_, ?_, ?_, ?_⟩ <;> decide

/-! ## C5: generation errors -/

/-- C5 (counterexample): "Hello" typed into the mounted component and answered by an
HTTP 500.  The history does not end as [user Hello]: the fixed apology text is appended
as an assistant utterance, and speakResponse is invoked with it. -/
theorem C5_error_reply_is_appended :
    (run groqConfig [Event.submit "Hello",
        Event.groqSettles 0 (GroqReply.notOk 500)]).conversationHistory
        = [⟨Role.user, "Hello"⟩, ⟨Role.assistant, apologyReply⟩] ∧
      (run groqConfig [Event.submit "Hello",
        Event.groqSettles 0 (GroqReply.notOk 500)]).conversationHistory
        ≠ [] ++ [⟨Role.user, "Hello"⟩] ∧
      speakResponseTexts (run groqConfig [Event.submit "Hello",
        Event.groqSettles 0 (GroqReply.notOk 500)]).calls = [apologyReply] ∧
      (run groqConfig [Event.submit "Hello",
        Event.groqSettles 0 (GroqReply.notOk 500)]).isSpeaking = true := by
  refine ⟨?_, ?_, ?_, ?_⟩ <;> decide

/-- C5 (amended): for a handleTranscriptComplete(t) run by a closure whose
conversationHistory is h, with the Groq key set, whose request fails with a non-OK
status, a network failure or a body without choices[0].message: getAIResponse sets the
status to "Error getting AI response" and returns the fixed apology text, and
handleTranscriptComplete treats it as a reply: conversationHistory becomes
h ++ [user t, assistant apology] and speakResponse is invoked once, with the apology.
When instead the body has choices[0].message without a content, nothing is appended
after the user utterance, speakResponse is not invoked, isGenerating ends false and
isSpeaking is unchanged. -/
theorem C5_error_reply (cfg : Config) (h : List Message) (t : String) (s : State)
    (reply : GroqReply)
    (ht : jsTrim t ≠ "") (hkey : truthy cfg.apiKeys.groq = true)
    (hfail : reply.isFailure = true) :
    getAIResponseSettles reply s
        = ({ s with status := "Error getting AI response" }, some apologyReply) ∧
      (groqSettles cfg s.turns.length reply
        (handleTranscriptComplete cfg h t s)).conversationHistory
        = h ++ [⟨Role.user, t⟩, ⟨Role.assistant, apologyReply⟩] ∧
      speakResponseTexts (groqSettles cfg s.turns.length reply
        (handleTranscriptComplete cfg h t s)).calls
        = speakResponseTexts s.calls ++ [apologyReply] ∧
      (groqSettles cfg s.turns.length (GroqReply.content none)
        (handleTranscriptComplete cfg h t s)).conversationHistory = h ++ [⟨Role.user, t⟩] ∧
      speakResponseTexts (groqSettles cfg s.turns.length (GroqReply.content none)
        (handleTranscriptComplete cfg h t s)).calls = speakResponseTexts s.calls ∧
      (groqSettles cfg s.turns.length (GroqReply.content none)
        (handleTranscriptComplete cfg h t s)).isGenerating = false ∧
      (groqSettles cfg s.turns.length (GroqReply.content none)
        (handleTranscriptComplete cfg h t s)).isSpeaking = s.isSpeaking := by
  have hb := begin_with_key cfg h t s ht hkey
  have hset : ∀ s0, getAIResponseSettles reply s0
      = ({ s0 with status := "Error getting AI response" }, some apologyReply) := by
    intro s0
    cases reply <;> simp_all [GroqReply.isFailure, getAIResponseSettles]
  have k := groqSettles_live cfg (turnOf h t s) reply apologyReply
    (handleTranscriptComplete cfg h t s) s.turns.length
    (by rw [hb]; simp) (by rw [hb]; simp [turnOf])
    (by rw [hb]; simp [turnOf, List.getD_eq_getElem?_getD])
    (fun s0 => by rw [hset s0]) (by decide)
  refine ⟨hset s, ?_, ?_, ?_⟩
  · rw [k.1]; simp [turnOf]
  · rw [k.2, hb]; simp [speakResponseTexts]
  · rw [hb]
    simp [groqSettles, getAIResponseSettles, handleTranscriptCompleteResume,
      handleTranscriptCompleteEnd, speakResponseTexts]

/-- A typed "Hello" answered by an HTTP 500. -/
theorem C5_error_reply_witness :
    jsTrim "Hello" ≠ "" ∧ truthy groqConfig.apiKeys.groq = true ∧
      (GroqReply.notOk 500).isFailure = true ∧
      (groqSettles groqConfig 0 (GroqReply.notOk 500)
        (handleTranscriptComplete groqConfig [] "Hello" (mount groqConfig))).conversationHistory
        = [⟨Role.user, "Hello"⟩, ⟨Role.assistant, apologyReply⟩] :=
  ⟨by decide, by decide, by decide,
    (C5_error_reply groqConfig [] "Hello" (mount groqConfig) (GroqReply.notOk 500)
      (by decide) (by decide) (by decide)).2.1⟩

/-! ## C6: the messages sent to the generation provider -/

/-- C6 (the code at the failing input): after one completed typed turn the history is
[user a, assistant b] and the microphone is clicked.  A final recognizer result "c"
runs the handleTranscriptComplete of the first render, whose conversationHistory is
empty: the request carries [user c] alone, not the history followed by the new
utterance, and the history itself is replaced by [user c].  The same holds in every
state: the voice path sends only the new utterance. -/
theorem C6_voice_turn_drops_history :
    listeningAfterTurn.conversationHistory = [⟨Role.user, "a"⟩, ⟨Role.assistant, "b"⟩] ∧
      listeningAfterTurn.isListening = true ∧
      fetchGroqMessages (step groqConfig (Event.recognizerResult "c" true)
          listeningAfterTurn).calls
        = fetchGroqMessages listeningAfterTurn.calls ++ [[⟨Role.user, "c"⟩]] ∧
      [⟨Role.user, "c"⟩]
        ≠ listeningAfterTurn.conversationHistory ++ [(⟨Role.user, "c"⟩ : Message)] ∧
      (step groqConfig (Event.recognizerResult "c" true)
          listeningAfterTurn).conversationHistory = [⟨Role.user, "c"⟩] ∧
      ∀ (cfg : Config) (s : State) (text : String), jsTrim text ≠ "" →
        truthy cfg.apiKeys.groq = true →
        fetchGroqMessages (onresult cfg text true s).calls
          = fetchGroqMessages s.calls ++ [[⟨Role.user, text⟩]] := by
  refine ⟨by decide, by decide, by decide, by decide, by decide, ?_⟩
  intro cfg s text ht hkey
  simp only [onresult, if_true, mountHistory]
  rw [begin_with_key cfg [] text _ ht hkey]
  simp [fetchGroqMessages]

/-! ## C7: the synthesis chain -/

/-- C7: for every text x and every way the Murf request and playback end, the calls
speakResponse(x) makes to the two providers are: speakWithMurf(x) first if and only if
the Murf key is set; then speakWithWebAPI(x) if and only if the key is not set or
speakWithMurf returned false (the request rejected, the response was not OK, the body
had no audioFile, or audio.play() rejected); and speakWithMurf(x) alone when the remote
attempt succeeded. -/
theorem C7_provider_chain (cfg : Config) (x : String) (awaited : Bool) (s : State)
    (r : MurfFetch) (started : Bool) :
    providerCalls (speakResponse cfg x awaited s).calls
        = providerCalls s.calls ++
          (if truthy cfg.apiKeys.murf then [Call.speakWithMurf x] else [Call.speakWithWebAPI x]) ∧
      providerCalls (audioPlaySettles cfg s.speaks.length started
          (murfFetchSettles cfg s.speaks.length r (speakResponse cfg x awaited s))).calls
        = providerCalls s.calls ++
          (if truthy cfg.apiKeys.murf then
            (if murfSucceeds r started then [Call.speakWithMurf x]
              else [Call.speakWithMurf x, Call.speakWithWebAPI x])
           else [Call.speakWithWebAPI x]) := by
  by_cases hm : truthy cfg.apiKeys.murf = true
  · have h1 : speakResponse cfg x awaited s
        = { s with isSpeaking := true, status := "Speaking...",
                   calls := s.calls ++ [Call.speakResponse x, Call.speakWithMurf x],
                   speaks := s.speaks ++ [⟨x, SpeakPhase.fetching, awaited⟩] } := by
      simp [speakResponse, hm]
    rw [h1]
    refine ⟨by simp [providerCalls, hm], ?_⟩
    simp only [hm, if_true]
    have hfail : ∀ sp : Speak, sp.text = x →
        providerCalls (murfFailed cfg sp
          { s with isSpeaking := true, status := "Speaking...",
                   calls := s.calls ++ [Call.speakResponse x, Call.speakWithMurf x],
                   speaks := s.speaks }).calls
          = providerCalls s.calls ++ [Call.speakWithMurf x, Call.speakWithWebAPI x] ∧
        (murfFailed cfg sp
          { s with isSpeaking := true, status := "Speaking...",
                   calls := s.calls ++ [Call.speakResponse x, Call.speakWithMurf x],
                   speaks := s.speaks }).speaks = s.speaks := by
      intro sp hsp
      simp only [murfFailed, speakResponseReturns, speakWithWebAPI, handleTranscriptCompleteEnd,
        hsp]
      split_ifs <;> simp [providerCalls]
    have hnone : ∀ st : State, st.speaks = s.speaks →
        audioPlaySettles cfg s.speaks.length started st = st := by
      intro st hst
      simp [audioPlaySettles, hst]
    rcases r with _ | c | (_ | url)
    · simp only [murfFetchSettles, get?_append_length, eraseIdx_append_length, murfSucceeds]
      rw [hnone _ (hfail _ rfl).2]
      simpa using (hfail ⟨x, SpeakPhase.fetching, awaited⟩ rfl).1
    · simp only [murfFetchSettles, get?_append_length, eraseIdx_append_length, murfSucceeds]
      rw [hnone _ (hfail _ rfl).2]
      simpa using (hfail ⟨x, SpeakPhase.fetching, awaited⟩ rfl).1
    · simp only [murfFetchSettles, get?_append_length, eraseIdx_append_length, murfSucceeds]
      rw [hnone _ (hfail _ rfl).2]
      simpa using (hfail ⟨x, SpeakPhase.fetching, awaited⟩ rfl).1
    · by_cases hu : truthy url = true
      · simp only [murfFetchSettles, get?_append_length, murfSucceeds, hu, if_true,
          audioPlaySettles, get?_set_append_length, Bool.true_and]
        cases started
        · simp only [murfFailed, speakResponseReturns, speakWithWebAPI,
            handleTranscriptCompleteEnd]
          split_ifs <;> simp [providerCalls]
        · simp only [speakResponseReturns, handleTranscriptCompleteEnd]
          split_ifs <;> simp [providerCalls]
      · have hu2 : truthy url = false := by simpa using hu
        simp only [murfFetchSettles, get?_append_length, eraseIdx_append_length, murfSucceeds,
          hu2, Bool.false_and, Bool.false_eq_true, if_false]
        rw [hnone _ (hfail _ rfl).2]
        simpa using (hfail ⟨x, SpeakPhase.fetching, awaited⟩ rfl).1
  · have hm2 : truthy cfg.apiKeys.murf = false := by simpa using hm
    have h1 : (speakResponse cfg x awaited s).speaks = s.speaks ∧
        providerCalls (speakResponse cfg x awaited s).calls
          = providerCalls s.calls ++ [Call.speakWithWebAPI x] := by
      simp only [speakResponse, hm2, Bool.false_eq_true, if_false, speakResponseReturns,
        speakWithWebAPI, handleTranscriptCompleteEnd]
      split_ifs <;> simp [providerCalls]
    have h2 : murfFetchSettles cfg s.speaks.length r (speakResponse cfg x awaited s)
        = speakResponse cfg x awaited s := by
      simp [murfFetchSettles, h1.1]
    have h3 : audioPlaySettles cfg s.speaks.length started (speakResponse cfg x awaited s)
        = speakResponse cfg x awaited s := by
      simp [audioPlaySettles, h1.1]
    rw [h2, h3]
    simp [hm2, h1.2]

/-! ## C8: empty transcripts -/

/-- C8 (counterexample): the microphone is clicked and the recognizer delivers a final
result made of blanks.  handleTranscriptComplete reports "No speech detected" and
leaves the history alone, and isListening is still true when it returns: the state is
not IDLE. -/
theorem C8_blank_result_keeps_listening :
    jsTrim "   " = "" ∧
      (run groqConfig [Event.micClick false]).isListening = true ∧
      (handleTranscriptComplete groqConfig mountHistory "   "
        (run groqConfig [Event.micClick false])).isListening = true ∧
      (run groqConfig [Event.micClick false,
        Event.recognizerResult "   " true]).isListening = true ∧
      (run groqConfig [Event.micClick false,
        Event.recognizerResult "   " true]).status = "No speech detected" := by
  refine ⟨?_, ?_, ?_, ?_, ?_⟩ <;> decide

/-- C8 (amended): for every text whose trimmed form is empty, every closure and every
prior state, handleTranscriptComplete changes the status to "No speech detected" and
nothing else: conversationHistory, the calls (no generation request, no synthesis) and
the three flags are as before, so the state is IDLE afterwards exactly when it was
before.  On the recognizer path isListening is cleared by the onend that follows the
final result. -/
theorem C8_blank_transcript (cfg : Config) (h : List Message) (t : String) (s : State)
    (ht : jsTrim t = "") :
    handleTranscriptComplete cfg h t s = { s with status := "No speech detected" } ∧
      onend (onresult cfg t true s)
        = { s with transcript := t, status := "No speech detected", isListening := false } := by
  have hb : ∀ s0, handleTranscriptComplete cfg h t s0
      = { s0 with status := "No speech detected" } := by
    intro s0
    simp [handleTranscriptComplete, ht]
  have hb2 : ∀ s0, handleTranscriptComplete cfg mountHistory t s0
      = { s0 with status := "No speech detected" } := by
    intro s0
    simp [handleTranscriptComplete, ht]
  refine ⟨hb s, ?_⟩
  simp only [onresult, if_true, hb2, onend]

/-- A final result of three blanks delivered while listening. -/
theorem C8_blank_transcript_witness :
    jsTrim "   " = "" ∧
      handleTranscriptComplete groqConfig [] "   " (run groqConfig [Event.micClick false])
        = { run groqConfig [Event.micClick false] with status := "No speech detected" } :=
  ⟨by decide,
    (C8_blank_transcript groqConfig [] "   " (run groqConfig [Event.micClick false])
      (by decide)).1⟩

/-! ## C9: continuous mode -/

/-- C9 (counterexample): with continuous mode on, a typed turn runs to IDLE without any
cancellation.  The only callbacks scheduled are two focus timers of 500 ms (one from
the click on the toggle, one from the end of the turn); capture is not started, and
when both timers have fired isListening is still false and the recognizer has not been
started. -/
theorem C9_no_capture_is_scheduled :
    (run groqConfig continuousRun).continuousMode = true ∧
      (run groqConfig continuousRun).isSpeaking = false ∧
      (run groqConfig continuousRun).isGenerating = false ∧
      (run groqConfig continuousRun).timers
        = [⟨500, TimerAction.focusInput⟩, ⟨500, TimerAction.focusInput⟩] ∧
      (run groqConfig (continuousRun ++ [Event.timerFires 0, Event.timerFires 0])).timers = [] ∧
      (run groqConfig (continuousRun ++ [Event.timerFires 0, Event.timerFires 0])).isListening
        = false ∧
      Call.recognitionStart ∉
        (run groqConfig (continuousRun ++ [Event.timerFires 0, Event.timerFires 0])).calls := by
  refine ⟨?_, ?_, ?_, ?_, ?_, ?_, ?_⟩ <;> decide

/-- C9 (amended): when a render ends a turn (isSpeaking or isGenerating was true, both
are false now) with continuous mode on and the text input mounted, the effect schedules
one callback, after 500 ms, that focuses the text input; scheduling it and firing any
timer leave isListening as it was and do not start the recognizer.  With continuous
mode off the effect schedules nothing. -/
theorem C9_continuous_focus (old new : State)
    (hturn : old.isSpeaking = true ∨ old.isGenerating = true)
    (hidle : new.isSpeaking = false ∧ new.isGenerating = false)
    (hcont : new.continuousMode = true) (hinput : new.inputRef = true) :
    afterRender old new = { new with timers := new.timers ++ [⟨500, TimerAction.focusInput⟩] } ∧
      timerFires new.timers.length (afterRender old new)
        = { new with calls := new.calls ++ [Call.focusInput] } ∧
      (∀ (i : Nat) (s : State), (timerFires i s).isListening = s.isListening ∧
        (Call.recognitionStart ∈ (timerFires i s).calls → Call.recognitionStart ∈ s.calls)) ∧
      (∀ (a b : State), b.continuousMode = false → afterRender a b = b) := by
  have h1 : afterRender old new
      = { new with timers := new.timers ++ [⟨500, TimerAction.focusInput⟩] } := by
    rcases hturn with ho | ho <;>
      simp [afterRender, continuousModeEffect, ho, hidle.1, hidle.2, hcont, hinput]
  refine ⟨h1, ?_, ?_, ?_⟩
  · rw [h1]
    simp [timerFires, eraseIdx_append_length]
  · intro i s
    unfold timerFires
    cases hi : s.timers.get? i with
    | none => simp
    | some tm =>
      cases ha : tm.action <;> simp [ha]
  · intro a b hb
    simp only [afterRender, continuousModeEffect, hb]
    split_ifs <;> simp_all

/-- The end of the speech of a turn, in continuous mode. -/
theorem C9_continuous_focus_witness :
    ((run groqConfig [Event.continuousClick, Event.submit "Hello",
          Event.groqSettles 0 (GroqReply.content (some "Hi there!"))]).isSpeaking = true ∨
        (run groqConfig [Event.continuousClick, Event.submit "Hello",
          Event.groqSettles 0 (GroqReply.content (some "Hi there!"))]).isGenerating = true) ∧
      (handle groqConfig Event.utteranceEnded
        (run groqConfig [Event.continuousClick, Event.submit "Hello",
          Event.groqSettles 0 (GroqReply.content (some "Hi there!"))])).continuousMode = true ∧
      (afterRender
        (run groqConfig [Event.continuousClick, Event.submit "Hello",
          Event.groqSettles 0 (GroqReply.content (some "Hi there!"))])
        (handle groqConfig Event.utteranceEnded
          (run groqConfig [Event.continuousClick, Event.submit "Hello",
            Event.groqSettles 0 (GroqReply.content (some "Hi there!"))]))).timers
        = [⟨500, TimerAction.focusInput⟩, ⟨500, TimerAction.focusInput⟩] :=
  ⟨by decide, by decide,
    congrArg State.timers
      (C9_continuous_focus
        (run groqConfig [Event.continuousClick, Event.submit "Hello",
          Event.groqSettles 0 (GroqReply.content (some "Hi there!"))])
        (handle groqConfig Event.utteranceEnded
          (run groqConfig [Event.continuousClick, Event.submit "Hello",
            Event.groqSettles 0 (GroqReply.content (some "Hi there!"))]))
        (by decide) (by decide) (by decide) (by decide)).1⟩

/-! ## C10: stopSpeaking when nothing is speaking -/

/-- C10 (counterexample): right after mount with the Murf key set nothing is speaking
and the status is "Ready (GROQ + MURF Voice)"; stopSpeaking raises no error but
replaces the status by "Ready (GROQ)", so the state after differs from the state
before.  In a browser without speechSynthesis the same call raises a TypeError. -/
theorem C10_stopSpeaking_changes_status :
    (mount murfConfig).isSpeaking = false ∧
      (mount murfConfig).audioRef = none ∧
      (mount murfConfig).synthQueue = 0 ∧
      (mount murfConfig).status = "Ready (GROQ + MURF Voice)" ∧
      stopSpeaking murfConfig (mount murfConfig)
        = Except.ok { mount murfConfig with status := "Ready (GROQ)" } ∧
      stopSpeaking murfConfig (mount murfConfig) ≠ Except.ok (mount murfConfig) ∧
      stopSpeaking noSynthConfig (mount noSynthConfig)
        = Except.error "TypeError: window.speechSynthesis is undefined" := by
  have h1 : stopSpeaking murfConfig (mount murfConfig)
      = Except.ok { mount murfConfig with status := "Ready (GROQ)" } := rfl
  refine ⟨by decide, by decide, by decide, by decide, h1, ?_, rfl⟩
  intro h
  rw [h1] at h
  have h2 := congrArg State.status (Except.ok.inj h)
  revert h2
  decide

/-- C10 (amended): in a browser that has speechSynthesis, for every state in which
isSpeaking is false, audioRef.current is null and the local synthesizer is not
speaking, stopSpeaking raises no error and changes nothing but the status, which
becomes "Ready (GROQ)": isGenerating, isListening, conversationHistory, response, the
refs and the calls are as before. -/
theorem C10_stopSpeaking_idle (cfg : Config) (s : State)
    (hsynth : cfg.hasSpeechSynthesis = true) (hquiet : s.isSpeaking = false)
    (haudio : s.audioRef = none) (hlocal : s.synthQueue = 0) :
    stopSpeaking cfg s = Except.ok { s with status := "Ready (GROQ)" } := by
  cases s
  simp_all [stopSpeaking]

/-- The mounted component, before anything was spoken. -/
theorem C10_stopSpeaking_idle_witness :
    murfConfig.hasSpeechSynthesis = true ∧ (mount murfConfig).isSpeaking = false ∧
      (mount murfConfig).audioRef = none ∧ (mount murfConfig).synthQueue = 0 ∧
      stopSpeaking murfConfig (mount murfConfig)
        = Except.ok { mount murfConfig with status := "Ready (GROQ)" } :=
  ⟨by decide, by decide, by decide, by decide,
    C10_stopSpeaking_idle murfConfig (mount murfConfig) (by decide) (by decide) (by decide)
      (by decide)⟩

/-! ## C11: assistant entries follow user entries -/

/-- C11: in every state the mounted component can reach, by any sequence of turns
started from any path, completed, failed or canceled, with their completions
interleaved in any order, and of clearConversation calls, every entry of
conversationHistory with role assistant at index i has i > 0 and the entry at index
i - 1 has role user; and a turn whose request ends canceled (AbortError, so that
getAIResponse returns null) leaves conversationHistory as it was. -/
theorem C11_assistant_follows_user (cfg : Config) (s : State) (hs : Reachable cfg s) :
    (∀ (i : Nat) (m : Message), s.conversationHistory.get? i = some m →
        m.role = Role.assistant →
        0 < i ∧ ∃ p, s.conversationHistory.get? (i - 1) = some p ∧ p.role = Role.user) ∧
      ∀ (j : Nat),
        (step cfg (Event.groqSettles j GroqReply.abortError) s).conversationHistory
          = s.conversationHistory := by
  refine ⟨(paired_reachable cfg s hs).1, ?_⟩
  intro j
  have h1 : held (step cfg (Event.groqSettles j GroqReply.abortError) s)
      = held (handle cfg (Event.groqSettles j GroqReply.abortError) s) := held_afterRender _ _
  have h2 : (step cfg (Event.groqSettles j GroqReply.abortError) s).conversationHistory
      = (handle cfg (Event.groqSettles j GroqReply.abortError) s).conversationHistory :=
    congrArg Prod.fst h1
  rw [h2]
  simp only [handle, groqSettles]
  split
  · rfl
  · rfl

/-- Scenario A as a reachable state: the assistant entry at index 1 follows the user
entry at index 0. -/
theorem C11_assistant_follows_user_witness :
    Reachable groqConfig
        (run groqConfig
          [Event.submit "Hello", Event.groqSettles 0 (GroqReply.content (some "Hi there!"))]) ∧
      (run groqConfig
          [Event.submit "Hello",
            Event.groqSettles 0 (GroqReply.content (some "Hi there!"))]).conversationHistory
        = [⟨Role.user, "Hello"⟩, ⟨Role.assistant, "Hi there!"⟩] ∧
      (0 < 1 ∧ ∃ p,
        (run groqConfig
          [Event.submit "Hello",
            Event.groqSettles 0 (GroqReply.content (some "Hi there!"))]).conversationHistory.get?
            (1 - 1) = some p ∧ p.role = Role.user) :=
  ⟨reachable_run _ _, by decide,
    (C11_assistant_follows_user groqConfig _ (reachable_run groqConfig
      [Event.submit "Hello", Event.groqSettles 0 (GroqReply.content (some "Hi there!"))])).1
      1 ⟨Role.assistant, "Hi there!"⟩ (by decide) rfl⟩

/-! ## C12: a missing generation credential -/

/-- C12 (counterexample): without a Groq key, "Hello" typed into the mounted component.
No request is sent, but the turn runs: the history ends as [user Hello, assistant
"Please configure your Groq API key in the .env file."], speakResponse is invoked with
that text, and the status ends as "Ready (GROQ)", not as a configuration error. -/
theorem C12_missing_key_turn_runs :
    truthy noKeyConfig.apiKeys.groq = false ∧
      (run noKeyConfig [Event.submit "Hello"]).conversationHistory
        = [⟨Role.user, "Hello"⟩, ⟨Role.assistant, configureKeyReply⟩] ∧
      (run noKeyConfig [Event.submit "Hello"]).conversationHistory ≠ [] ∧
      speakResponseTexts (run noKeyConfig [Event.submit "Hello"]).calls = [configureKeyReply] ∧
      (run noKeyConfig [Event.submit "Hello"]).status = "Ready (GROQ)" ∧
      fetchGroqMessages (run noKeyConfig [Event.submit "Hello"]).calls = [] := by
  refine ⟨?_, ?_, ?_, ?_, ?_, ?_⟩ <;> decide

/-- C12 (amended): when the Groq key is absent the mount effect reports it through the
status, and for a handleTranscriptComplete(t) run by a closure whose conversationHistory
is h, with non-empty trimmed t, no generation request is issued and no turn is left
suspended; but getAIResponse returns the text "Please configure your Groq API key in
the .env file.", which is treated as a reply: conversationHistory becomes
h ++ [user t, assistant reply], speakResponse is invoked once, with the reply, and the
status set by getAIResponse is overwritten ("Speaking..." while the Murf request is
pending, "Ready (GROQ)" otherwise). -/
theorem C12_missing_key (cfg : Config) (h : List Message) (t : String) (s : State)
    (hkey : truthy cfg.apiKeys.groq = false) (ht : jsTrim t ≠ "") :
    (mount cfg).status = "⚠️ Groq API key not configured" ∧
      fetchGroqMessages (handleTranscriptComplete cfg h t s).calls = fetchGroqMessages s.calls ∧
      (handleTranscriptComplete cfg h t s).turns = s.turns ∧
      (handleTranscriptComplete cfg h t s).conversationHistory
        = h ++ [⟨Role.user, t⟩, ⟨Role.assistant, configureKeyReply⟩] ∧
      speakResponseTexts (handleTranscriptComplete cfg h t s).calls
        = speakResponseTexts s.calls ++ [configureKeyReply] ∧
      (handleTranscriptComplete cfg h t s).status
        = (if truthy cfg.apiKeys.murf then "Speaking..." else "Ready (GROQ)") := by
  rw [begin_without_key cfg h t s ht hkey]
  refine ⟨by simp [mount, hkey], ?_⟩
  simp only [speakResponse, speakResponseReturns, speakWithWebAPI, handleTranscriptCompleteEnd,
    if_true]
  split_ifs <;> simp [fetchGroqMessages, speakResponseTexts]

/-- A typed "Hello" without any key. -/
theorem C12_missing_key_witness :
    truthy noKeyConfig.apiKeys.groq = false ∧ jsTrim "Hello" ≠ "" ∧
      (handleTranscriptComplete noKeyConfig [] "Hello" (mount noKeyConfig)).conversationHistory
        = [⟨Role.user, "Hello"⟩, ⟨Role.assistant, configureKeyReply⟩] :=
  ⟨by decide, by decide,
    (C12_missing_key noKeyConfig [] "Hello" (mount noKeyConfig) (by decide) (by decide)).2.2.2.1⟩

/-! ## C13: stopping capture by hand -/

/-- C13 (counterexample): on the remote batch path the microphone is clicked, the
recording starts, and the microphone is clicked again.  The recorder fires onstop, the
recording is uploaded and its transcript "Hello" is passed to handleTranscriptComplete:
isListening is false, but getAIResponse is invoked and conversationHistory is not the
one before the stop.  On the local path a final recognizer result delivered after the
stop starts a turn in the same way. -/
theorem C13_manual_stop_starts_generation :
    (run deepgramConfig (stoppedRecordingRun.take 2)).isListening = true ∧
      (run deepgramConfig (stoppedRecordingRun.take 2)).conversationHistory = [] ∧
      (run deepgramConfig (stoppedRecordingRun.take 3)).isListening = false ∧
      (run deepgramConfig stoppedRecordingRun).isListening = false ∧
      getAIResponseCalls (run deepgramConfig stoppedRecordingRun).calls
        = [("Hello", [⟨Role.user, "Hello"⟩])] ∧
      (run deepgramConfig stoppedRecordingRun).conversationHistory = [⟨Role.user, "Hello"⟩] ∧
      (run deepgramConfig stoppedRecordingRun).isGenerating = true ∧
      getAIResponseCalls (run groqConfig [Event.micClick false, Event.micClick false,
          Event.recognizerResult "Hello" true]).calls = [("Hello", [⟨Role.user, "Hello"⟩])] := by
  refine ⟨?_, ?_, ?_, ?_, ?_, ?_, ?_, ?_⟩ <;> decide

/-- C13 (amended): stopListening sets isListening to false and the status to
"Processing...", and by itself invokes no getAIResponse and leaves conversationHistory
as it was; it does not discard the capture.  On the remote batch path (no recognizer,
a recorder that is recording) it stops the recorder; the onstop it triggers uploads the
recording, and a transcript with non-empty trimmed form is passed to
handleTranscriptComplete, which (Groq key set) appends the user utterance to the
history bound when the capture started and invokes getAIResponse.  On the local path
(a recognizer, no recorder) it calls recognition.stop(), and a final result with
non-empty trimmed form delivered afterwards starts a turn: the user utterance becomes
the last entry of conversationHistory and getAIResponse is invoked for it.
isListening stays false through these handlers. -/
theorem C13_stop_processes_capture (cfg : Config) (s : State) (text : String)
    (ht : jsTrim text ≠ "") (hkey : truthy cfg.apiKeys.groq = true) :
    ((stopListening s).isListening = false ∧
      (stopListening s).status = "Processing..." ∧
      (stopListening s).conversationHistory = s.conversationHistory ∧
      getAIResponseCalls (stopListening s).calls = getAIResponseCalls s.calls) ∧
    (∀ r : Recorder, s.recognitionRef = false → s.mediaRecorderRef = some r →
      r.recording = true →
      (stopListening s).calls = s.calls ++ [Call.recorderStop] ∧
        (stopListening s).recorderStops = s.recorderStops ++ [r.captured] ∧
        (deepgramSettles cfg s.transcriptions.length (some text)
            (recorderOnstop s.recorderStops.length (stopListening s))).isListening = false ∧
        (deepgramSettles cfg s.transcriptions.length (some text)
            (recorderOnstop s.recorderStops.length (stopListening s))).conversationHistory
          = r.captured ++ [⟨Role.user, text⟩] ∧
        getAIResponseCalls (deepgramSettles cfg s.transcriptions.length (some text)
            (recorderOnstop s.recorderStops.length (stopListening s))).calls
          = getAIResponseCalls s.calls ++ [(text, r.captured ++ [⟨Role.user, text⟩])]) ∧
    (s.recognitionRef = true → s.mediaRecorderRef = none →
      (stopListening s).calls = s.calls ++ [Call.recognitionStop] ∧
        (handle cfg (Event.recognizerResult text true) (stopListening s)).isListening = false ∧
        (handle cfg (Event.recognizerResult text true)
            (stopListening s)).conversationHistory.getLast? = some ⟨Role.user, text⟩ ∧
        (getAIResponseCalls
            (handle cfg (Event.recognizerResult text true) (stopListening s)).calls).map Prod.fst
          = (getAIResponseCalls s.calls).map Prod.fst ++ [text]) := by
  have hq := stopListening_quiet s
  refine ⟨⟨hq.1, hq.2.1, hq.2.2.1, hq.2.2.2.1⟩, ?_, ?_⟩
  · intro r hno hrec hon
    have hsl := stopListening_recording s r hrec hon
    simp only [hno, Bool.false_eq_true, if_false] at hsl
    rw [hsl]
    simp only [recorderOnstop, get?_append_length, eraseIdx_append_length, deepgramSettles]
    rw [begin_with_key cfg _ text _ ht hkey]
    simp [getAIResponseCalls]
  · intro hrec hnone
    rw [stopListening_recognizer s hrec hnone]
    simp only [handle, hrec, if_true, onresult, mountHistory]
    rw [begin_with_key cfg _ text _ ht hkey]
    simp [getAIResponseCalls]

/-- Both strategies: the recording of the remote path stopped by hand and transcribed
as "Hello", and the recognizer of the local path stopped by hand before it delivers
"Hello". -/
theorem C13_stop_processes_capture_witness :
    jsTrim "Hello" ≠ "" ∧ truthy deepgramConfig.apiKeys.groq = true ∧
      truthy groqConfig.apiKeys.groq = true ∧
      (run deepgramConfig (stoppedRecordingRun.take 2)).recognitionRef = false ∧
      (run deepgramConfig (stoppedRecordingRun.take 2)).mediaRecorderRef = some ⟨true, []⟩ ∧
      getAIResponseCalls (deepgramSettles deepgramConfig 0 (some "Hello")
          (recorderOnstop 0 (stopListening
            (run deepgramConfig (stoppedRecordingRun.take 2))))).calls
        = [("Hello", [⟨Role.user, "Hello"⟩])] ∧
      (run groqConfig [Event.micClick false]).isListening = true ∧
      (run groqConfig [Event.micClick false]).recognitionRef = true ∧
      (run groqConfig [Event.micClick false]).mediaRecorderRef = none ∧
      (stopListening (run groqConfig [Event.micClick false])).calls
        = [Call.recognitionStart, Call.recognitionStop] ∧
      (getAIResponseCalls (handle groqConfig (Event.recognizerResult "Hello" true)
          (stopListening (run groqConfig [Event.micClick false]))).calls).map Prod.fst
        = ["Hello"] :=
  have k1 := (C13_stop_processes_capture deepgramConfig
      (run deepgramConfig (stoppedRecordingRun.take 2)) "Hello" (by decide) (by decide)).2.1
      ⟨true, []⟩ (by decide) (by decide) rfl
  have k2 := (C13_stop_processes_capture groqConfig (run groqConfig [Event.micClick false])
      "Hello" (by decide) (by decide)).2.2 (by decide) (by decide)
  ⟨by decide, by decide, by decide, by decide, by decide, k1.2.2.2.2, by decide, by decide,
    by decide, k2.1, k2.2.2.2⟩

/-! ## C14: release of the audio handle -/

/-- C14 (the code at the failing input): the onended and onerror handlers of the audio
element and a stopSpeaking that returns all leave audioRef.current null.  But when
audio.play() rejects, speakWithMurf returns false from its catch without touching the
ref: whatever the state, the settling of play() leaves audioRef as it was.  For a typed
"Hello" answered by "Hi there!", with a Murf audio file whose play() rejects, the local
synthesizer is started as the fallback while audioRef still holds the audio element.
In a browser without speechSynthesis, stopSpeaking throws at its first line, before the
release: a click on Stop Speaking during a Murf playback leaves the handle held. -/
theorem C14_handle_kept_after_play_rejects :
    (∀ s : State, (audioFinished s).audioRef = none) ∧
      (∀ (cfg : Config) (s s1 : State), stopSpeaking cfg s = Except.ok s1 → s1.audioRef = none) ∧
      (∀ (cfg : Config) (i : Nat) (started : Bool) (s : State),
        (audioPlaySettles cfg i started s).audioRef = s.audioRef) ∧
      (run murfConfig (murfPlaybackRun false)).audioRef = some 0 ∧
      (run murfConfig (murfPlaybackRun false)).synthQueue = 1 ∧
      providerCalls (run murfConfig (murfPlaybackRun false)).calls
        = [Call.speakWithMurf "Hi there!", Call.speakWithWebAPI "Hi there!"] ∧
      (run murfConfig (murfPlaybackRun false)).speaks = [] ∧
      (run noSynthConfig (murfPlaybackRun true)).audioRef = some 0 ∧
      (run noSynthConfig (murfPlaybackRun true ++ [Event.toggleSpeakingClick])).audioRef
        = some 0 := by
  refine ⟨fun s => rfl, ?_, ?_, by decide, by decide, by decide, by decide, by decide, by decide⟩
  · intro cfg s s1 h
    unfold stopSpeaking at h
    split at h
    · cases h
    · simp only [Except.ok.injEq] at h
      rw [← h]
      split <;> split <;> simp_all
  · intro cfg i started s
    unfold audioPlaySettles
    split
    · rfl
    · split
      · rfl
      · simp only [murfFailed, speakResponseReturns, speakWithWebAPI, handleTranscriptCompleteEnd]
        split_ifs <;> rfl

end VoiceAgent
